import Mathlib

/-!
Shallow embedding of the C M3U8 parser (`m3u8_parser.h` / `m3u8_parser.c`)
of the openwurl/openm3u8 repository, together with theorems checking the
natural-language specification against it.

Modelling conventions:
* C strings (`char*`) are `List Char`; a nullable `char*` field is
  `Option (List Char)`; a `NULL` attribute list is the empty list.
* C `int` / `long long` are `Int` (no claim exercises overflow).
* C `double` values produced by `strtod`/`atof` are modelled exactly by a
  decimal number `num / 10 ^ exp10` (`Dec`); the parser only stores and
  truncates these values, it never performs floating-point arithmetic.
* Pointer identity of the `Key`/`Map` objects referenced from segments is
  modelled by indices into the document's `keys` / `segment_map` lists.
* The main loop and the attribute lexer advance a cursor by a variable
  amount per iteration; they are embedded with an explicit fuel argument
  (`input length + 1`), which the C loop structure never exhausts because
  every iteration consumes at least one byte.
-/

/-- Whitespace test used by the scanner and lexer: C checks ` ` and tab. -/
def isWsC (c : Char) : Bool :=
  c == ' ' || c == '\t'

/-- ASCII `tolower`, as used by `normalize_attr_name` and the lowercasing
of `ALLOW-CACHE` / `PLAYLIST-TYPE` values. -/
def toLowerC (c : Char) : Char :=
  if 'A' ≤ c ∧ c ≤ 'Z' then Char.ofNat (c.toNat + 32) else c

/-- ASCII uppercase conversion used by the `DURATION` scan in
`handle_cue_out` (`if (c >= 'a' && c <= 'z') c -= 32`). -/
def toUpperC (c : Char) : Char :=
  if 'a' ≤ c ∧ c ≤ 'z' then Char.ofNat (c.toNat - 32) else c

/-- C `isspace` over the characters that can occur here. -/
def isSpaceC (c : Char) : Bool :=
  c == ' ' || c == '\t' || c == '\n' || c == '\r' || c == '\x0b' || c == '\x0c'

/-- C digit test. -/
def isDigitC (c : Char) : Bool :=
  decide ('0' ≤ c ∧ c ≤ '9')

/-- Trim trailing spaces and tabs (the lexer's key/value trimming). -/
def trimTrailWs (l : List Char) : List Char :=
  (l.reverse.dropWhile isWsC).reverse

/-- Trim trailing spaces, tabs and carriage returns from a scanned line
(main loop, lines 1598-1601 of the source). -/
def trimTrailLine (l : List Char) : List Char :=
  (l.reverse.dropWhile (fun c => c == ' ' || c == '\t' || c == '\r')).reverse

/-- `starts_with(line, len, prefix)`: the first `strlen(prefix)` bytes of
the line equal the given literal. -/
def starts_with (line pfx : List Char) : Bool :=
  pfx.isPrefixOf line

/-- Digit run to a natural number together with the count of digits read. -/
def readDigits : List Char → Nat → Nat → Nat × Nat × List Char
  | [], acc, k => (acc, k, [])
  | c :: rest, acc, k =>
    if isDigitC c then readDigits rest (acc * 10 + (c.toNat - '0'.toNat)) (k + 1)
    else (acc, k, c :: rest)

/-- C `atoi` / `strtoll` with base 10: skip `isspace`, optional sign, then
decimal digits; no conversion yields 0.  Overflow is not modelled. -/
def atoiC (l : List Char) : Int :=
  let l1 := l.dropWhile isSpaceC
  match l1 with
  | '-' :: rest => - Int.ofNat (readDigits rest 0 0).1
  | '+' :: rest => Int.ofNat (readDigits rest 0 0).1
  | rest => Int.ofNat (readDigits rest 0 0).1

/-- Exact value of a decimal literal: `num / 10 ^ exp10`.  This models the
`double` returned by `strtod`/`atof`; the parser never computes with these
values, it only stores them or truncates them to an integer. -/
structure Dec where
  num : Int
  exp10 : Nat
deriving DecidableEq, Repr

/-- The zero double (also the `calloc` default and the accessor default). -/
def Dec.zero : Dec := ⟨0, 0⟩

/-- Mantissa part of `strtod`: integer digits, optional fraction. Returns
`(digitsValue, fractionLength, sawAnyDigit, rest)`. -/
def readMantissa (l : List Char) : Nat × Nat × Bool × List Char :=
  let (ip, ik, r1) := readDigits l 0 0
  match r1 with
  | '.' :: r2 =>
    let (fp, fk, r3) := readDigits r2 ip 0
    (fp, fk, ik + fk > 0, r3)
  | _ => (ip, 0, ik > 0, r1)

/-- C `strtod` / `atof` on the prefix of the string: skip `isspace`,
optional sign, digits with optional fraction, optional decimal exponent.
Hexadecimal, `inf` and `nan` forms are not modelled (never produced by the
grammar of the tags).  No conversion yields 0. -/
def strtodDec (l : List Char) : Dec :=
  let l1 := l.dropWhile isSpaceC
  let (neg, l2) :=
    match l1 with
    | '-' :: rest => (true, rest)
    | '+' :: rest => (false, rest)
    | rest => (false, rest)
  let (m, fl, ok, r) := readMantissa l2
  if ok then
    let e : Int :=
      match r with
      | 'e' :: '-' :: r2 => if (readDigits r2 0 0).2.1 > 0 then - Int.ofNat (readDigits r2 0 0).1 else 0
      | 'E' :: '-' :: r2 => if (readDigits r2 0 0).2.1 > 0 then - Int.ofNat (readDigits r2 0 0).1 else 0
      | 'e' :: '+' :: r2 => Int.ofNat (readDigits r2 0 0).1
      | 'E' :: '+' :: r2 => Int.ofNat (readDigits r2 0 0).1
      | 'e' :: r2 => Int.ofNat (readDigits r2 0 0).1
      | 'E' :: r2 => Int.ofNat (readDigits r2 0 0).1
      | _ => 0
    let sgn : Int := if neg then -1 else 1
    let shifted : Int := e - Int.ofNat fl
    if 0 ≤ shifted then
      ⟨sgn * Int.ofNat m * (10 : Int) ^ shifted.toNat, 0⟩
    else
      ⟨sgn * Int.ofNat m, (- shifted).toNat⟩
  else Dec.zero

/-- The C cast `(long long)d` of a double: truncation toward zero. -/
def Dec.trunc (d : Dec) : Int :=
  d.num.tdiv (Int.ofNat (10 ^ d.exp10))

/-- One `(key, raw value)` pair produced by the attribute lexer
(`struct M3U8Attribute`; the `next` pointer becomes list structure). -/
structure M3U8Attribute where
  key : List Char
  value : List Char
deriving DecidableEq, Repr

/-- `normalize_attr_name`: `-` becomes `_`, everything else is passed
through `tolower`; then trailing whitespace is trimmed. -/
def normalize_attr_name (l : List Char) : List Char :=
  trimTrailWs (l.map (fun c => if c == '-' then '_' else toLowerC c))

/-- One step of the `parse_attributes` loop, with fuel.  Mirrors the C
loop body: skip whitespace; scan to `=` or `,`; emit a bare value (empty
key, only if nonempty) or a keyed value whose quoted form is preserved
verbatim, a quoted value running to the matching close quote with the
stretch to the next comma discarded. -/
def parse_attributes_fuel : Nat → List Char → List M3U8Attribute
  | 0, _ => []
  | fuel + 1, l =>
    let l1 := l.dropWhile isWsC
    match l1 with
    | [] => []
    | _ :: _ =>
      let tok := l1.takeWhile (fun c => !(c == '=' || c == ','))
      let rest := l1.drop tok.length
      match rest with
      | ',' :: rest2 =>
        let v := trimTrailWs tok
        if v = [] then parse_attributes_fuel fuel rest2
        else ⟨[], v⟩ :: parse_attributes_fuel fuel rest2
      | '=' :: rest2 =>
        let key := normalize_attr_name (trimTrailWs tok)
        let v0 := rest2.dropWhile isWsC
        match v0 with
        | q :: inner =>
          if q = '"' ∨ q = '\x27' then
            let content := inner.takeWhile (fun c => !(c == q))
            let afterContent := inner.drop content.length
            let value :=
              match afterContent with
              | _ :: _ => q :: content ++ [q]
              | [] => q :: content
            let afterQuote := match afterContent with
              | _ :: r => r
              | [] => []
            let skipped := afterQuote.dropWhile (fun c => !(c == ','))
            let next := match skipped with
              | _ :: r => r
              | [] => []
            ⟨key, value⟩ :: parse_attributes_fuel fuel next
          else
            let value := v0.takeWhile (fun c => !(c == ','))
            let afterValue := v0.drop value.length
            let next := match afterValue with
              | _ :: r => r
              | [] => []
            ⟨key, trimTrailWs value⟩ :: parse_attributes_fuel fuel next
        | [] => [⟨key, []⟩]
      | _ =>
        let v := trimTrailWs tok
        if v = [] then [] else [⟨[], v⟩]

/-- `parse_attributes`: the C loop consumes at least one byte per
iteration, so `length + 1` units of fuel are never exhausted. -/
def parse_attributes (l : List Char) : List M3U8Attribute :=
  parse_attributes_fuel (l.length + 1) l

/-- `get_attr`: first match by exact key comparison. -/
def get_attr (attrs : List M3U8Attribute) (key : List Char) : Option (List Char) :=
  match attrs.find? (fun a => a.key == key) with
  | some a => some a.value
  | none => none

/-- `get_attr_int`. -/
def get_attr_int (attrs : List M3U8Attribute) (key : List Char) (d : Int) : Int :=
  match get_attr attrs key with
  | some v => atoiC v
  | none => d

/-- `get_attr_ll` (same base-10 semantics as `atoi` in this model). -/
def get_attr_ll (attrs : List M3U8Attribute) (key : List Char) (d : Int) : Int :=
  match get_attr attrs key with
  | some v => atoiC v
  | none => d

/-- `get_attr_double`. -/
def get_attr_double (attrs : List M3U8Attribute) (key : List Char) (d : Dec) : Dec :=
  match get_attr attrs key with
  | some v => strtodDec v
  | none => d

/-- `get_attr_str`: verbatim copy, `NULL` when absent. -/
def get_attr_str (attrs : List M3U8Attribute) (key : List Char) : Option (List Char) :=
  get_attr attrs key

/-- Strip one layer of balanced double or single quotes (the body of
`get_attr_str_unquoted` and `remove_quotes`). -/
def unquote (v : List Char) : List Char :=
  if 2 ≤ v.length ∧
      ((v.head? = some '"' ∧ v.getLast? = some '"') ∨
       (v.head? = some '\x27' ∧ v.getLast? = some '\x27')) then
    (v.drop 1).dropLast
  else v

/-- `get_attr_str_unquoted`. -/
def get_attr_str_unquoted (attrs : List M3U8Attribute) (key : List Char) : Option (List Char) :=
  match get_attr attrs key with
  | some v => some (unquote v)
  | none => none

/-- `struct M3U8Key` (`#EXT-X-KEY` / `#EXT-X-SESSION-KEY`), all fields
quote-stripped; the `next` pointer becomes list structure. -/
structure M3U8Key where
  method : Option (List Char) := none
  uri : Option (List Char) := none
  iv : Option (List Char) := none
  keyformat : Option (List Char) := none
  keyformatversions : Option (List Char) := none
deriving DecidableEq, Repr

/-- `struct M3U8Map` (`#EXT-X-MAP`). -/
structure M3U8Map where
  uri : Option (List Char) := none
  byterange : Option (List Char) := none
deriving DecidableEq, Repr

/-- `struct M3U8DateRange` (`#EXT-X-DATERANGE`). -/
structure M3U8DateRange where
  id : Option (List Char) := none
  class_name : Option (List Char) := none
  start_date : Option (List Char) := none
  end_date : Option (List Char) := none
  duration : Dec := Dec.zero
  planned_duration : Dec := Dec.zero
  scte35_cmd : Option (List Char) := none
  scte35_out : Option (List Char) := none
  scte35_in : Option (List Char) := none
  end_on_next : Option (List Char) := none
  x_attrs : List M3U8Attribute := []
deriving DecidableEq, Repr

/-- `struct M3U8Part` (`#EXT-X-PART`). -/
structure M3U8Part where
  uri : Option (List Char) := none
  duration : Dec := Dec.zero
  byterange : Option (List Char) := none
  independent : Option (List Char) := none
  gap : Option (List Char) := none
  dateranges : List M3U8DateRange := []
  gap_tag : Bool := false
deriving DecidableEq, Repr

/-- `struct M3U8Segment`.  `key` and `init_section` are borrowing pointers
in C; here they are indices into the document's `keys` / `segment_map`
lists (pointer identity as index identity).  The `calloc` defaults are the
field defaults. -/
structure M3U8Segment where
  duration : Dec := Dec.zero
  title : Option (List Char) := none
  uri : Option (List Char) := none
  byterange : Option (List Char) := none
  bitrate : Int := 0
  discontinuity : Bool := false
  program_date_time : Option (List Char) := none
  cue_in : Bool := false
  cue_out : Bool := false
  cue_out_start : Bool := false
  cue_out_explicitly_duration : Bool := false
  scte35 : Option (List Char) := none
  oatcls_scte35 : Option (List Char) := none
  scte35_duration : Option (List Char) := none
  scte35_elapsedtime : Option (List Char) := none
  asset_metadata : List M3U8Attribute := []
  key : Option Nat := none
  init_section : Option Nat := none
  dateranges : List M3U8DateRange := []
  gap_tag : Bool := false
  blackout : Option (List Char) := none
  parts : List M3U8Part := []
deriving DecidableEq, Repr

/-- A fresh `calloc`ed segment. -/
def M3U8Segment.empty : M3U8Segment := {}

/-- `struct M3U8Playlist` (`#EXT-X-STREAM-INF` + URI). -/
structure M3U8Playlist where
  uri : Option (List Char) := none
  program_id : Int := 0
  bandwidth : Int := 0
  average_bandwidth : Int := 0
  resolution : Option (List Char) := none
  codecs : Option (List Char) := none
  frame_rate : Dec := Dec.zero
  video : Option (List Char) := none
  audio : Option (List Char) := none
  subtitles : Option (List Char) := none
  closed_captions : Option (List Char) := none
  video_range : Option (List Char) := none
  hdcp_level : Option (List Char) := none
  pathway_id : Option (List Char) := none
  stable_variant_id : Option (List Char) := none
  req_video_layout : Option (List Char) := none
deriving DecidableEq, Repr

/-- `struct M3U8IFramePlaylist` (`#EXT-X-I-FRAME-STREAM-INF`). -/
structure M3U8IFramePlaylist where
  uri : Option (List Char) := none
  program_id : Int := 0
  bandwidth : Int := 0
  average_bandwidth : Int := 0
  resolution : Option (List Char) := none
  codecs : Option (List Char) := none
  video_range : Option (List Char) := none
  hdcp_level : Option (List Char) := none
  pathway_id : Option (List Char) := none
  stable_variant_id : Option (List Char) := none
deriving DecidableEq, Repr

/-- `struct M3U8ImagePlaylist` (`#EXT-X-IMAGE-STREAM-INF`). -/
structure M3U8ImagePlaylist where
  uri : Option (List Char) := none
  program_id : Int := 0
  bandwidth : Int := 0
  average_bandwidth : Int := 0
  resolution : Option (List Char) := none
  codecs : Option (List Char) := none
  pathway_id : Option (List Char) := none
  stable_variant_id : Option (List Char) := none
deriving DecidableEq, Repr

/-- `struct M3U8Media` (`#EXT-X-MEDIA`). -/
structure M3U8Media where
  type : Option (List Char) := none
  uri : Option (List Char) := none
  group_id : Option (List Char) := none
  language : Option (List Char) := none
  assoc_language : Option (List Char) := none
  name : Option (List Char) := none
  default_val : Option (List Char) := none
  autoselect : Option (List Char) := none
  forced : Option (List Char) := none
  instream_id : Option (List Char) := none
  characteristics : Option (List Char) := none
  channels : Option (List Char) := none
  stable_rendition_id : Option (List Char) := none
deriving DecidableEq, Repr

/-- `struct M3U8RenditionReport` (`#EXT-X-RENDITION-REPORT`). -/
structure M3U8RenditionReport where
  uri : Option (List Char) := none
  last_msn : Int := 0
  last_part : Int := 0
  has_last_msn : Bool := false
  has_last_part : Bool := false
deriving DecidableEq, Repr

/-- `struct M3U8SessionData` (`#EXT-X-SESSION-DATA`). -/
structure M3U8SessionData where
  data_id : Option (List Char) := none
  value : Option (List Char) := none
  uri : Option (List Char) := none
  language : Option (List Char) := none
deriving DecidableEq, Repr

/-- `struct M3U8Tiles` (`#EXT-X-TILES`). -/
structure M3U8Tiles where
  resolution : Option (List Char) := none
  layout : Option (List Char) := none
  duration : Dec := Dec.zero
  uri : Option (List Char) := none
deriving DecidableEq, Repr

/-- `struct M3U8Data`, the returned document.  Head/tail linked lists
become Lean lists appended at the tail.  `calloc` defaults are the field
defaults. -/
structure M3U8Data where
  targetduration : Int := 0
  media_sequence : Int := 0
  discontinuity_sequence : Int := 0
  version : Int := 0
  allow_cache : Option (List Char) := none
  playlist_type : Option (List Char) := none
  program_date_time : Option (List Char) := none
  is_variant : Bool := false
  is_endlist : Bool := false
  is_i_frames_only : Bool := false
  is_independent_segments : Bool := false
  is_images_only : Bool := false
  has_media_sequence : Bool := false
  start_time_offset : Dec := Dec.zero
  has_start : Bool := false
  start_precise : Option (List Char) := none
  server_control_can_block_reload : Option (List Char) := none
  server_control_hold_back : Dec := Dec.zero
  server_control_part_hold_back : Dec := Dec.zero
  server_control_can_skip_until : Dec := Dec.zero
  server_control_can_skip_dateranges : Option (List Char) := none
  has_server_control : Bool := false
  part_inf_part_target : Dec := Dec.zero
  has_part_inf : Bool := false
  skip_skipped_segments : Int := 0
  skip_recently_removed_dateranges : Option (List Char) := none
  has_skip : Bool := false
  preload_hint_type : Option (List Char) := none
  preload_hint_uri : Option (List Char) := none
  preload_hint_byterange_start : Int := 0
  preload_hint_byterange_length : Int := 0
  has_preload_hint : Bool := false
  has_preload_hint_byterange_start : Bool := false
  has_preload_hint_byterange_length : Bool := false
  content_steering_server_uri : Option (List Char) := none
  content_steering_pathway_id : Option (List Char) := none
  has_content_steering : Bool := false
  segments : List M3U8Segment := []
  playlists : List M3U8Playlist := []
  iframe_playlists : List M3U8IFramePlaylist := []
  image_playlists : List M3U8ImagePlaylist := []
  media : List M3U8Media := []
  keys : List M3U8Key := []
  session_keys : List M3U8Key := []
  segment_map : List M3U8Map := []
  rendition_reports : List M3U8RenditionReport := []
  session_data : List M3U8SessionData := []
  tiles : List M3U8Tiles := []
deriving DecidableEq, Repr

/-- The `calloc`ed document returned at parse start. -/
def M3U8Data.empty : M3U8Data := {}

/-- `ParserState` (`= {0}` at parse start).  `current_key` / `current_map`
are indices into the document's `keys` / `segment_map` lists. -/
structure ParserState where
  expect_segment : Bool := false
  expect_playlist : Bool := false
  current_segment : Option M3U8Segment := none
  current_key : Option Nat := none
  current_map : Option Nat := none
  cue_out : Bool := false
  cue_out_start : Bool := false
  cue_out_explicitly_duration : Bool := false
  cue_in : Bool := false
  discontinuity : Bool := false
  gap : Bool := false
  blackout : Option (List Char) := none
  current_cue_out_scte35 : Option (List Char) := none
  current_cue_out_oatcls_scte35 : Option (List Char) := none
  current_cue_out_duration : Option (List Char) := none
  current_cue_out_elapsedtime : Option (List Char) := none
  asset_metadata : List M3U8Attribute := []
  program_date_time : Option (List Char) := none
  dateranges : List M3U8DateRange := []
  stream_info : List M3U8Attribute := []
deriving DecidableEq, Repr

/-- The zero-initialized parser state. -/
def ParserState.init : ParserState := {}

/-- Index of the first occurrence of a character, or the length of the
list when absent (`memchr` / `strchr`). -/
def idxOfChar (l : List Char) (c : Char) : Nat :=
  (l.takeWhile (fun x => !(x == c))).length

/-- `handle_targetduration`: `atoi` after the 22-byte tag prefix. -/
def handle_targetduration (d : M3U8Data) (line : List Char) : M3U8Data :=
  { d with targetduration := atoiC (line.drop 22) }

/-- `handle_media_sequence`. -/
def handle_media_sequence (d : M3U8Data) (line : List Char) : M3U8Data :=
  { d with media_sequence := atoiC (line.drop 22), has_media_sequence := true }

/-- `handle_discontinuity_sequence`. -/
def handle_discontinuity_sequence (d : M3U8Data) (line : List Char) : M3U8Data :=
  { d with discontinuity_sequence := atoiC (line.drop 30) }

/-- `handle_version`. -/
def handle_version (d : M3U8Data) (line : List Char) : M3U8Data :=
  { d with version := atoiC (line.drop 15) }

/-- `handle_allow_cache`: value after the prefix, leading whitespace
skipped, ASCII-lowercased. -/
def handle_allow_cache (d : M3U8Data) (line : List Char) : M3U8Data :=
  { d with allow_cache := some (((line.drop 19).dropWhile isWsC).map toLowerC) }

/-- `handle_playlist_type`. -/
def handle_playlist_type (d : M3U8Data) (line : List Char) : M3U8Data :=
  { d with playlist_type := some (((line.drop 21).dropWhile isWsC).map toLowerC) }

/-- `handle_program_date_time`: stages the value on state (replacing any
staged one) and sets the document field only if not already set. -/
def handle_program_date_time (d : M3U8Data) (s : ParserState) (line : List Char) :
    M3U8Data × ParserState :=
  let v := (line.drop 25).dropWhile isWsC
  ({ d with program_date_time :=
      match d.program_date_time with
      | none => some v
      | some p => some p },
   { s with program_date_time := some v })

/-- `handle_blackout`: raw text after `:`, or the sentinel marker when the
tag has no parameters. -/
def handle_blackout (s : ParserState) (line : List Char) : ParserState :=
  let k := idxOfChar line ':'
  if k < line.length then
    { s with blackout := some (line.drop (k + 1)) }
  else
    { s with blackout := some ("__BLACKOUT_TRUE__".toList) }

/-- `handle_key`: builds a quote-stripped Key, appends it to the document
`keys` list and makes it the current key (modelled by its index). -/
def handle_key (d : M3U8Data) (s : ParserState) (line : List Char) :
    M3U8Data × ParserState :=
  let attrs := parse_attributes (line.drop 11)
  let key : M3U8Key :=
    { method := get_attr_str_unquoted attrs ("method".toList)
      uri := get_attr_str_unquoted attrs ("uri".toList)
      iv := get_attr_str_unquoted attrs ("iv".toList)
      keyformat := get_attr_str_unquoted attrs ("keyformat".toList)
      keyformatversions := get_attr_str_unquoted attrs ("keyformatversions".toList) }
  ({ d with keys := d.keys ++ [key] }, { s with current_key := some d.keys.length })

/-- `handle_session_key`: like `handle_key` but appended to the session
keys list and not made current. -/
def handle_session_key (d : M3U8Data) (line : List Char) : M3U8Data :=
  let attrs := parse_attributes (line.drop 19)
  let key : M3U8Key :=
    { method := get_attr_str_unquoted attrs ("method".toList)
      uri := get_attr_str_unquoted attrs ("uri".toList)
      iv := get_attr_str_unquoted attrs ("iv".toList)
      keyformat := get_attr_str_unquoted attrs ("keyformat".toList)
      keyformatversions := get_attr_str_unquoted attrs ("keyformatversions".toList) }
  { d with session_keys := d.session_keys ++ [key] }

/-- `handle_map`: quote-stripped Map, appended and made current. -/
def handle_map (d : M3U8Data) (s : ParserState) (line : List Char) :
    M3U8Data × ParserState :=
  let attrs := parse_attributes (line.drop 11)
  let map : M3U8Map :=
    { uri := get_attr_str_unquoted attrs ("uri".toList)
      byterange := get_attr_str_unquoted attrs ("byterange".toList) }
  ({ d with segment_map := d.segment_map ++ [map] },
   { s with current_map := some d.segment_map.length })

/-- `handle_extinf`: parse the leading double into the (possibly freshly
created) current segment, take the remainder after the first comma as the
title when nonempty, and set `expect_segment`. -/
def handle_extinf (s : ParserState) (line : List Char) : ParserState :=
  let p := line.drop 8
  let seg0 := s.current_segment.getD M3U8Segment.empty
  let seg1 := { seg0 with duration := strtodDec p }
  let k := idxOfChar p ','
  let seg2 :=
    if k < p.length then
      let t := (p.drop (k + 1)).dropWhile isWsC
      if t = [] then seg1 else { seg1 with title := some t }
    else seg1
  { s with current_segment := some seg2, expect_segment := true }

/-- `handle_byterange`: raw value onto the current segment (created if
missing); sets `expect_segment`. -/
def handle_byterange (s : ParserState) (line : List Char) : ParserState :=
  let seg0 := s.current_segment.getD M3U8Segment.empty
  { s with current_segment := some { seg0 with byterange := some (line.drop 17) },
           expect_segment := true }

/-- `handle_bitrate`: `atoi` onto the current segment (created if
missing); does not set `expect_segment`. -/
def handle_bitrate (s : ParserState) (line : List Char) : ParserState :=
  let seg0 := s.current_segment.getD M3U8Segment.empty
  { s with current_segment := some { seg0 with bitrate := atoiC (line.drop 15) } }

/-- The `DURATION` keyword scan of `handle_cue_out`: at each position, if
the byte uppercases to `D`, compare the next 8 bytes against the two
exact spellings `DURATION` and `duration`. -/
def hasDurationToken : List Char → Bool
  | [] => false
  | c :: rest =>
    if toUpperC c = 'D' ∧
        ((c :: rest).take 8 = ("DURATION".toList) ∨ (c :: rest).take 8 = ("duration".toList)) then
      true
    else hasDurationToken rest

/-- `handle_cue_out`: sets `cue_out` and `cue_out_start`; scans the line
for the `DURATION` keyword when longer than 12 bytes; then, if a body
follows the colon, takes `cue` (quote-stripped) and `duration` (keyed raw,
or bare) into the pending SCTE-35 state. -/
def handle_cue_out (s : ParserState) (line : List Char) : ParserState :=
  let s1 := { s with cue_out_start := true, cue_out := true }
  let s2 :=
    if 12 < line.length ∧ hasDurationToken line then
      { s1 with cue_out_explicitly_duration := true }
    else s1
  let k := idxOfChar line ':'
  if k < line.length ∧ k + 1 < line.length then
    let attrs := parse_attributes (line.drop (k + 1))
    let s3 :=
      match get_attr_str_unquoted attrs ("cue".toList) with
      | some cue => { s2 with current_cue_out_scte35 := some cue }
      | none => s2
    let dur :=
      match get_attr attrs ("duration".toList) with
      | some v => some v
      | none => get_attr attrs []
    match dur with
    | some v => { s3 with current_cue_out_duration := some v }
    | none => s3
  else s2

/-- `handle_cue_out_cont`: re-sets `cue_out`; splits a bare
`elapsed/total` value; keyed `duration`, `scte35`, `elapsedtime`
(quote-stripped) override. -/
def handle_cue_out_cont (s : ParserState) (line : List Char) : ParserState :=
  let s1 := { s with cue_out := true }
  let k := idxOfChar line ':'
  if k < line.length then
    let attrs := parse_attributes (line.drop (k + 1))
    let s2 :=
      match get_attr attrs [] with
      | some b =>
        let j := idxOfChar b '/'
        if j < b.length then
          { s1 with current_cue_out_elapsedtime := some (b.take j),
                    current_cue_out_duration := some (b.drop (j + 1)) }
        else
          { s1 with current_cue_out_duration := some b }
      | none => s1
    let s3 :=
      match get_attr_str_unquoted attrs ("duration".toList) with
      | some v => { s2 with current_cue_out_duration := some v }
      | none => s2
    let s4 :=
      match get_attr_str_unquoted attrs ("scte35".toList) with
      | some v => { s3 with current_cue_out_scte35 := some v }
      | none => s3
    match get_attr_str_unquoted attrs ("elapsedtime".toList) with
    | some v => { s4 with current_cue_out_elapsedtime := some v }
    | none => s4
  else s1

/-- `handle_oatcls_scte35`: stages the raw payload after the colon as
`oatcls_scte35`, and as `scte35` too when none is staged yet. -/
def handle_oatcls_scte35 (s : ParserState) (line : List Char) : ParserState :=
  let k := idxOfChar line ':'
  if k < line.length then
    let v := line.drop (k + 1)
    { s with current_cue_out_oatcls_scte35 := some v,
             current_cue_out_scte35 :=
               match s.current_cue_out_scte35 with
               | none => some v
               | some old => some old }
  else s

/-- `handle_asset`: stages the full attribute list as pending asset
metadata. -/
def handle_asset (s : ParserState) (line : List Char) : ParserState :=
  let k := idxOfChar line ':'
  if k < line.length then
    { s with asset_metadata := parse_attributes (line.drop (k + 1)) }
  else s

/-- `handle_daterange`: builds a DateRange and pushes it on the FRONT of
the pending list (`dr->next = state->dateranges`). -/
def handle_daterange (s : ParserState) (line : List Char) : ParserState :=
  let attrs := parse_attributes (line.drop 17)
  let dr : M3U8DateRange :=
    { id := get_attr_str_unquoted attrs ("id".toList)
      class_name := get_attr_str_unquoted attrs ("class".toList)
      start_date := get_attr_str_unquoted attrs ("start_date".toList)
      end_date := get_attr_str_unquoted attrs ("end_date".toList)
      duration := get_attr_double attrs ("duration".toList) Dec.zero
      planned_duration := get_attr_double attrs ("planned_duration".toList) Dec.zero
      scte35_cmd := get_attr_str attrs ("scte35_cmd".toList)
      scte35_out := get_attr_str attrs ("scte35_out".toList)
      scte35_in := get_attr_str attrs ("scte35_in".toList)
      end_on_next := get_attr_str attrs ("end_on_next".toList)
      x_attrs := attrs.filter (fun a =>
        match a.key with
        | 'x' :: '_' :: _ => true
        | _ => false) }
  { s with dateranges := dr :: s.dateranges }

/-- `handle_stream_inf`: marks the document as a variant playlist, clears
the media-sequence presence flag, stages the attributes and sets
`expect_playlist`. -/
def handle_stream_inf (d : M3U8Data) (s : ParserState) (line : List Char) :
    M3U8Data × ParserState :=
  ({ d with is_variant := true, has_media_sequence := false },
   { s with stream_info := parse_attributes (line.drop 18), expect_playlist := true })

/-- `handle_i_frame_stream_inf`: fully described on its own line. -/
def handle_i_frame_stream_inf (d : M3U8Data) (line : List Char) : M3U8Data :=
  let attrs := parse_attributes (line.drop 26)
  let pl : M3U8IFramePlaylist :=
    { uri := get_attr_str_unquoted attrs ("uri".toList)
      program_id := get_attr_int attrs ("program_id".toList) 0
      bandwidth := get_attr_ll attrs ("bandwidth".toList) 0
      average_bandwidth := get_attr_ll attrs ("average_bandwidth".toList) 0
      resolution := get_attr_str attrs ("resolution".toList)
      codecs := get_attr_str_unquoted attrs ("codecs".toList)
      video_range := get_attr_str_unquoted attrs ("video_range".toList)
      hdcp_level := get_attr_str attrs ("hdcp_level".toList)
      pathway_id := get_attr_str_unquoted attrs ("pathway_id".toList)
      stable_variant_id := get_attr_str_unquoted attrs ("stable_variant_id".toList) }
  { d with iframe_playlists := d.iframe_playlists ++ [pl] }

/-- `handle_image_stream_inf`. -/
def handle_image_stream_inf (d : M3U8Data) (line : List Char) : M3U8Data :=
  let attrs := parse_attributes (line.drop 24)
  let pl : M3U8ImagePlaylist :=
    { uri := get_attr_str_unquoted attrs ("uri".toList)
      program_id := get_attr_int attrs ("program_id".toList) 0
      bandwidth := get_attr_ll attrs ("bandwidth".toList) 0
      average_bandwidth := get_attr_ll attrs ("average_bandwidth".toList) 0
      resolution := get_attr_str attrs ("resolution".toList)
      codecs := get_attr_str_unquoted attrs ("codecs".toList)
      pathway_id := get_attr_str_unquoted attrs ("pathway_id".toList)
      stable_variant_id := get_attr_str_unquoted attrs ("stable_variant_id".toList) }
  { d with image_playlists := d.image_playlists ++ [pl] }

/-- `handle_media`: `type`, `default`, `autoselect`, `forced` raw, the
other strings quote-stripped. -/
def handle_media (d : M3U8Data) (line : List Char) : M3U8Data :=
  let attrs := parse_attributes (line.drop 13)
  let m : M3U8Media :=
    { type := get_attr_str attrs ("type".toList)
      uri := get_attr_str_unquoted attrs ("uri".toList)
      group_id := get_attr_str_unquoted attrs ("group_id".toList)
      language := get_attr_str_unquoted attrs ("language".toList)
      assoc_language := get_attr_str_unquoted attrs ("assoc_language".toList)
      name := get_attr_str_unquoted attrs ("name".toList)
      default_val := get_attr_str attrs ("default".toList)
      autoselect := get_attr_str attrs ("autoselect".toList)
      forced := get_attr_str attrs ("forced".toList)
      instream_id := get_attr_str_unquoted attrs ("instream_id".toList)
      characteristics := get_attr_str_unquoted attrs ("characteristics".toList)
      channels := get_attr_str_unquoted attrs ("channels".toList)
      stable_rendition_id := get_attr_str_unquoted attrs ("stable_rendition_id".toList) }
  { d with media := d.media ++ [m] }

/-- `handle_start`. -/
def handle_start (d : M3U8Data) (line : List Char) : M3U8Data :=
  let attrs := parse_attributes (line.drop 13)
  { d with start_time_offset := get_attr_double attrs ("time_offset".toList) Dec.zero
           start_precise := get_attr_str attrs ("precise".toList)
           has_start := true }

/-- `handle_server_control`. -/
def handle_server_control (d : M3U8Data) (line : List Char) : M3U8Data :=
  let attrs := parse_attributes (line.drop 22)
  { d with server_control_can_block_reload := get_attr_str attrs ("can_block_reload".toList)
           server_control_hold_back := get_attr_double attrs ("hold_back".toList) Dec.zero
           server_control_part_hold_back := get_attr_double attrs ("part_hold_back".toList) Dec.zero
           server_control_can_skip_until := get_attr_double attrs ("can_skip_until".toList) Dec.zero
           server_control_can_skip_dateranges := get_attr_str attrs ("can_skip_dateranges".toList)
           has_server_control := true }

/-- `handle_part_inf`. -/
def handle_part_inf (d : M3U8Data) (line : List Char) : M3U8Data :=
  let attrs := parse_attributes (line.drop 16)
  { d with part_inf_part_target := get_attr_double attrs ("part_target".toList) Dec.zero
           has_part_inf := true }

/-- `handle_skip`. -/
def handle_skip (d : M3U8Data) (line : List Char) : M3U8Data :=
  let attrs := parse_attributes (line.drop 12)
  { d with skip_skipped_segments := get_attr_int attrs ("skipped_segments".toList) 0
           skip_recently_removed_dateranges :=
             get_attr_str_unquoted attrs ("recently_removed_dateranges".toList)
           has_skip := true }

/-- `handle_rendition_report`. -/
def handle_rendition_report (d : M3U8Data) (line : List Char) : M3U8Data :=
  let attrs := parse_attributes (line.drop 24)
  let base : M3U8RenditionReport := { uri := get_attr_str_unquoted attrs ("uri".toList) }
  let r1 :=
    match get_attr attrs ("last_msn".toList) with
    | some v => { base with last_msn := atoiC v, has_last_msn := true }
    | none => base
  let r2 :=
    match get_attr attrs ("last_part".toList) with
    | some v => { r1 with last_part := atoiC v, has_last_part := true }
    | none => r1
  { d with rendition_reports := d.rendition_reports ++ [r2] }

/-- `handle_session_data`. -/
def handle_session_data (d : M3U8Data) (line : List Char) : M3U8Data :=
  let attrs := parse_attributes (line.drop 20)
  let sd : M3U8SessionData :=
    { data_id := get_attr_str_unquoted attrs ("data_id".toList)
      value := get_attr_str_unquoted attrs ("value".toList)
      uri := get_attr_str_unquoted attrs ("uri".toList)
      language := get_attr_str_unquoted attrs ("language".toList) }
  { d with session_data := d.session_data ++ [sd] }

/-- `handle_preload_hint`. -/
def handle_preload_hint (d : M3U8Data) (line : List Char) : M3U8Data :=
  let attrs := parse_attributes (line.drop 20)
  let d1 :=
    { d with preload_hint_type := get_attr_str attrs ("type".toList)
             preload_hint_uri := get_attr_str_unquoted attrs ("uri".toList) }
  let d2 :=
    match get_attr attrs ("byterange_start".toList) with
    | some v => { d1 with preload_hint_byterange_start := atoiC v,
                          has_preload_hint_byterange_start := true }
    | none => d1
  let d3 :=
    match get_attr attrs ("byterange_length".toList) with
    | some v => { d2 with preload_hint_byterange_length := atoiC v,
                          has_preload_hint_byterange_length := true }
    | none => d2
  { d3 with has_preload_hint := true }

/-- `handle_content_steering`. -/
def handle_content_steering (d : M3U8Data) (line : List Char) : M3U8Data :=
  let attrs := parse_attributes (line.drop 24)
  { d with content_steering_server_uri := get_attr_str_unquoted attrs ("server_uri".toList)
           content_steering_pathway_id := get_attr_str_unquoted attrs ("pathway_id".toList)
           has_content_steering := true }

/-- `handle_tiles`. -/
def handle_tiles (d : M3U8Data) (line : List Char) : M3U8Data :=
  let attrs := parse_attributes (line.drop 13)
  let t : M3U8Tiles :=
    { resolution := get_attr_str attrs ("resolution".toList)
      layout := get_attr_str attrs ("layout".toList)
      duration := get_attr_double attrs ("duration".toList) Dec.zero
      uri := get_attr_str_unquoted attrs ("uri".toList) }
  { d with tiles := d.tiles ++ [t] }

/-- `handle_part`: builds a Part that receives the current `gap` flag and
the pending dateranges (both cleared on state), and appends it to the
parts of the current segment (created if missing). -/
def handle_part (s : ParserState) (line : List Char) : ParserState :=
  let attrs := parse_attributes (line.drop 12)
  let part : M3U8Part :=
    { uri := get_attr_str_unquoted attrs ("uri".toList)
      duration := get_attr_double attrs ("duration".toList) Dec.zero
      byterange := get_attr_str attrs ("byterange".toList)
      independent := get_attr_str attrs ("independent".toList)
      gap := get_attr_str attrs ("gap".toList)
      gap_tag := s.gap
      dateranges := s.dateranges }
  let seg0 := s.current_segment.getD M3U8Segment.empty
  { s with dateranges := []
           gap := false
           current_segment := some { seg0 with parts := seg0.parts ++ [part] } }

/-- `finalize_segment`: consume the pending state at a URI line into a
segment appended to the document, then reset the per-segment flags.  The
SCTE-35 quartet and the asset metadata are copied when `cue_out` is still
set and moved (state nulled) otherwise; key and map references attach by
index; the pending dateranges move in unconditionally. -/
def finalize_segment (d : M3U8Data) (s : ParserState) (uri : List Char) :
    M3U8Data × ParserState :=
  let seg0 := s.current_segment.getD M3U8Segment.empty
  let seg : M3U8Segment :=
    { seg0 with
      uri := some uri
      discontinuity := s.discontinuity
      cue_in := s.cue_in
      cue_out := s.cue_out
      cue_out_start := s.cue_out_start
      cue_out_explicitly_duration := s.cue_out_explicitly_duration
      gap_tag := s.gap
      blackout :=
        match s.blackout with
        | some b => some b
        | none => seg0.blackout
      program_date_time :=
        match s.program_date_time with
        | some p => some p
        | none => seg0.program_date_time
      scte35 := s.current_cue_out_scte35
      oatcls_scte35 := s.current_cue_out_oatcls_scte35
      scte35_duration := s.current_cue_out_duration
      scte35_elapsedtime := s.current_cue_out_elapsedtime
      asset_metadata :=
        if s.asset_metadata = [] then seg0.asset_metadata else s.asset_metadata
      key := s.current_key
      init_section := s.current_map
      dateranges := s.dateranges }
  ({ d with segments := d.segments ++ [seg] },
   { s with
     current_segment := none
     expect_segment := false
     discontinuity := false
     cue_in := false
     cue_out := false
     cue_out_start := false
     cue_out_explicitly_duration := false
     gap := false
     blackout := none
     program_date_time := none
     current_cue_out_scte35 := if s.cue_out then s.current_cue_out_scte35 else none
     current_cue_out_oatcls_scte35 := if s.cue_out then s.current_cue_out_oatcls_scte35 else none
     current_cue_out_duration := if s.cue_out then s.current_cue_out_duration else none
     current_cue_out_elapsedtime := if s.cue_out then s.current_cue_out_elapsedtime else none
     asset_metadata := if s.cue_out then s.asset_metadata else []
     dateranges := [] })

/-- `finalize_playlist`: when stream-info attributes are staged, build the
Variant from them and append it; in every case clear the staged
attributes and `expect_playlist`.  With no staged attributes (the staged
list is `NULL` in C) no Variant is appended and the URI is dropped. -/
def finalize_playlist (d : M3U8Data) (s : ParserState) (uri : List Char) :
    M3U8Data × ParserState :=
  let s1 := { s with stream_info := [], expect_playlist := false }
  if s.stream_info = [] then (d, s1)
  else
    let si := s.stream_info
    let pl : M3U8Playlist :=
      { uri := some uri
        program_id := get_attr_int si ("program_id".toList) 0
        bandwidth :=
          match get_attr si ("bandwidth".toList) with
          | some bw => (strtodDec bw).trunc
          | none => 0
        average_bandwidth := get_attr_ll si ("average_bandwidth".toList) 0
        resolution := get_attr_str si ("resolution".toList)
        codecs := get_attr_str_unquoted si ("codecs".toList)
        frame_rate := get_attr_double si ("frame_rate".toList) Dec.zero
        video := get_attr_str_unquoted si ("video".toList)
        audio := get_attr_str_unquoted si ("audio".toList)
        subtitles := get_attr_str_unquoted si ("subtitles".toList)
        video_range := get_attr_str_unquoted si ("video_range".toList)
        hdcp_level := get_attr_str si ("hdcp_level".toList)
        pathway_id := get_attr_str_unquoted si ("pathway_id".toList)
        stable_variant_id := get_attr_str_unquoted si ("stable_variant_id".toList)
        req_video_layout := get_attr_str si ("req_video_layout".toList)
        closed_captions := get_attr si ("closed_captions".toList) }
    ({ d with playlists := d.playlists ++ [pl] }, s1)

/-- The tag dispatcher and URI routing of `m3u8_parse` for one already
trimmed, nonempty logical line, in the exact order of the C `if` chain. -/
def processLine (d : M3U8Data) (s : ParserState) (line : List Char) :
    M3U8Data × ParserState :=
  if line.head? = some '#' then
    if starts_with line ("#EXTM3U".toList) then (d, s)
    else if starts_with line ("#EXTINF:".toList) then (d, handle_extinf s line)
    else if starts_with line ("#EXT-X-TARGETDURATION:".toList) then (handle_targetduration d line, s)
    else if starts_with line ("#EXT-X-MEDIA-SEQUENCE:".toList) then (handle_media_sequence d line, s)
    else if starts_with line ("#EXT-X-DISCONTINUITY-SEQUENCE:".toList) then (handle_discontinuity_sequence d line, s)
    else if starts_with line ("#EXT-X-VERSION:".toList) then (handle_version d line, s)
    else if starts_with line ("#EXT-X-ALLOW-CACHE:".toList) then (handle_allow_cache d line, s)
    else if starts_with line ("#EXT-X-PLAYLIST-TYPE:".toList) then (handle_playlist_type d line, s)
    else if starts_with line ("#EXT-X-PROGRAM-DATE-TIME:".toList) then handle_program_date_time d s line
    else if starts_with line ("#EXT-X-ENDLIST".toList) then ({ d with is_endlist := true }, s)
    else if starts_with line ("#EXT-X-I-FRAMES-ONLY".toList) then ({ d with is_i_frames_only := true }, s)
    else if starts_with line ("#EXT-X-INDEPENDENT-SEGMENTS".toList) then ({ d with is_independent_segments := true }, s)
    else if starts_with line ("#EXT-X-IMAGES-ONLY".toList) then ({ d with is_images_only := true }, s)
    else if starts_with line ("#EXT-X-DISCONTINUITY".toList) &&
            !starts_with line ("#EXT-X-DISCONTINUITY-SEQUENCE".toList) then
      (d, { s with discontinuity := true })
    else if starts_with line ("#EXT-X-GAP".toList) then (d, { s with gap := true })
    else if starts_with line ("#EXT-X-BLACKOUT".toList) then (d, handle_blackout s line)
    else if starts_with line ("#EXT-X-CUE-IN".toList) then (d, { s with cue_in := true })
    else if starts_with line ("#EXT-X-CUE-SPAN".toList) then (d, { s with cue_out := true })
    else if starts_with line ("#EXT-X-CUE-OUT-CONT".toList) then (d, handle_cue_out_cont s line)
    else if starts_with line ("#EXT-X-CUE-OUT".toList) then (d, handle_cue_out s line)
    else if starts_with line ("#EXT-OATCLS-SCTE35:".toList) then (d, handle_oatcls_scte35 s line)
    else if starts_with line ("#EXT-X-ASSET:".toList) then (d, handle_asset s line)
    else if starts_with line ("#EXT-X-KEY:".toList) then handle_key d s line
    else if starts_with line ("#EXT-X-SESSION-KEY:".toList) then (handle_session_key d line, s)
    else if starts_with line ("#EXT-X-MAP:".toList) then handle_map d s line
    else if starts_with line ("#EXT-X-BYTERANGE:".toList) then (d, handle_byterange s line)
    else if starts_with line ("#EXT-X-BITRATE:".toList) then (d, handle_bitrate s line)
    else if starts_with line ("#EXT-X-DATERANGE:".toList) then (d, handle_daterange s line)
    else if starts_with line ("#EXT-X-STREAM-INF:".toList) then handle_stream_inf d s line
    else if starts_with line ("#EXT-X-I-FRAME-STREAM-INF:".toList) then (handle_i_frame_stream_inf d line, s)
    else if starts_with line ("#EXT-X-IMAGE-STREAM-INF:".toList) then (handle_image_stream_inf d line, s)
    else if starts_with line ("#EXT-X-MEDIA:".toList) then (handle_media d line, s)
    else if starts_with line ("#EXT-X-START:".toList) then (handle_start d line, s)
    else if starts_with line ("#EXT-X-SERVER-CONTROL:".toList) then (handle_server_control d line, s)
    else if starts_with line ("#EXT-X-PART-INF:".toList) then (handle_part_inf d line, s)
    else if starts_with line ("#EXT-X-SKIP:".toList) then (handle_skip d line, s)
    else if starts_with line ("#EXT-X-RENDITION-REPORT:".toList) then (handle_rendition_report d line, s)
    else if starts_with line ("#EXT-X-SESSION-DATA:".toList) then (handle_session_data d line, s)
    else if starts_with line ("#EXT-X-PRELOAD-HINT:".toList) then (handle_preload_hint d line, s)
    else if starts_with line ("#EXT-X-CONTENT-STEERING:".toList) then (handle_content_steering d line, s)
    else if starts_with line ("#EXT-X-TILES:".toList) then (handle_tiles d line, s)
    else if starts_with line ("#EXT-X-PART:".toList) then (d, handle_part s line)
    else (d, s)
  else
    if s.expect_segment then finalize_segment d s line
    else if s.expect_playlist then finalize_playlist d s line
    else (d, s)

/-- The line scanner of the main loop, with fuel: skip leading spaces and
tabs, take the physical line up to `\n`/`\r`, trim trailing whitespace and
`\r`, skip empty lines (advancing one byte, as the C `line_end + 1`
does), and otherwise consume `\r`, then `\n`, after the line.  Every
iteration consumes at least one byte, so `length + 1` fuel never runs
out. -/
def splitLinesFuel : Nat → List Char → List (List Char)
  | 0, _ => []
  | fuel + 1, l =>
    let l1 := l.dropWhile isWsC
    match l1 with
    | [] => []
    | _ :: _ =>
      let raw := l1.takeWhile (fun c => !(c == '\n' || c == '\r'))
      let rest := l1.drop raw.length
      let line := trimTrailLine raw
      if line = [] then
        splitLinesFuel fuel rest.tail
      else
        let rest2 :=
          match rest with
          | '\r' :: '\n' :: r => r
          | '\r' :: r => r
          | '\n' :: r => r
          | r => r
        line :: splitLinesFuel fuel rest2

/-- The logical lines of the input. -/
def splitLines (content : List Char) : List (List Char) :=
  splitLinesFuel (content.length + 1) content

/-- Folding the dispatcher over a list of logical lines from the
zero-initialized document and state (the body of `m3u8_parse`). -/
def runLines (lines : List (List Char)) : M3U8Data × ParserState :=
  lines.foldl (fun p line => processLine p.1 p.2 line) (M3U8Data.empty, ParserState.init)

/-- End-of-input handling of `m3u8_parse`: a remaining current segment is
appended as-is (its URI still null); the rest of the state is dropped. -/
def finishParse (p : M3U8Data × ParserState) : M3U8Data :=
  match p.2.current_segment with
  | some seg => { p.1 with segments := p.1.segments ++ [seg] }
  | none => p.1

/-- `m3u8_parse`: `NULL` on missing/empty input (the null pointer of the C
interface is modelled by the empty input), otherwise the document built by
the single forward pass.  Allocation failure is not modelled. -/
def m3u8_parse (content : List Char) : Option M3U8Data :=
  if content.length = 0 then none
  else some (finishParse (runLines (splitLines content)))

/-- A line is recognized by the dispatcher when one of its tag tests
matches; any other `#` line falls through every branch. -/
def isRecognizedTag (line : List Char) : Bool :=
  starts_with line ("#EXTM3U".toList) ||
  starts_with line ("#EXTINF:".toList) ||
  starts_with line ("#EXT-X-TARGETDURATION:".toList) ||
  starts_with line ("#EXT-X-MEDIA-SEQUENCE:".toList) ||
  starts_with line ("#EXT-X-DISCONTINUITY-SEQUENCE:".toList) ||
  starts_with line ("#EXT-X-VERSION:".toList) ||
  starts_with line ("#EXT-X-ALLOW-CACHE:".toList) ||
  starts_with line ("#EXT-X-PLAYLIST-TYPE:".toList) ||
  starts_with line ("#EXT-X-PROGRAM-DATE-TIME:".toList) ||
  starts_with line ("#EXT-X-ENDLIST".toList) ||
  starts_with line ("#EXT-X-I-FRAMES-ONLY".toList) ||
  starts_with line ("#EXT-X-INDEPENDENT-SEGMENTS".toList) ||
  starts_with line ("#EXT-X-IMAGES-ONLY".toList) ||
  (starts_with line ("#EXT-X-DISCONTINUITY".toList) &&
   !starts_with line ("#EXT-X-DISCONTINUITY-SEQUENCE".toList)) ||
  starts_with line ("#EXT-X-GAP".toList) ||
  starts_with line ("#EXT-X-BLACKOUT".toList) ||
  starts_with line ("#EXT-X-CUE-IN".toList) ||
  starts_with line ("#EXT-X-CUE-SPAN".toList) ||
  starts_with line ("#EXT-X-CUE-OUT-CONT".toList) ||
  starts_with line ("#EXT-X-CUE-OUT".toList) ||
  starts_with line ("#EXT-OATCLS-SCTE35:".toList) ||
  starts_with line ("#EXT-X-ASSET:".toList) ||
  starts_with line ("#EXT-X-KEY:".toList) ||
  starts_with line ("#EXT-X-SESSION-KEY:".toList) ||
  starts_with line ("#EXT-X-MAP:".toList) ||
  starts_with line ("#EXT-X-BYTERANGE:".toList) ||
  starts_with line ("#EXT-X-BITRATE:".toList) ||
  starts_with line ("#EXT-X-DATERANGE:".toList) ||
  starts_with line ("#EXT-X-STREAM-INF:".toList) ||
  starts_with line ("#EXT-X-I-FRAME-STREAM-INF:".toList) ||
  starts_with line ("#EXT-X-IMAGE-STREAM-INF:".toList) ||
  starts_with line ("#EXT-X-MEDIA:".toList) ||
  starts_with line ("#EXT-X-START:".toList) ||
  starts_with line ("#EXT-X-SERVER-CONTROL:".toList) ||
  starts_with line ("#EXT-X-PART-INF:".toList) ||
  starts_with line ("#EXT-X-SKIP:".toList) ||
  starts_with line ("#EXT-X-RENDITION-REPORT:".toList) ||
  starts_with line ("#EXT-X-SESSION-DATA:".toList) ||
  starts_with line ("#EXT-X-PRELOAD-HINT:".toList) ||
  starts_with line ("#EXT-X-CONTENT-STEERING:".toList) ||
  starts_with line ("#EXT-X-TILES:".toList) ||
  starts_with line ("#EXT-X-PART:".toList)

/-- C1: at a URI line, the pending SCTE-35 quartet is written into the
finalized segment; the four state fields keep their values when
`cue_out` is still set (copy) and become null otherwise (move); the
pending asset-metadata list follows the same copy-if-in-span /
move-otherwise rule. -/
theorem C1_scte35_asset_ownership (d : M3U8Data) (s : ParserState) (u : List Char) :
    ((finalize_segment d s u).1.segments.getLast?.map fun sg => sg.scte35)
        = some s.current_cue_out_scte35 ∧
    ((finalize_segment d s u).1.segments.getLast?.map fun sg => sg.oatcls_scte35)
        = some s.current_cue_out_oatcls_scte35 ∧
    ((finalize_segment d s u).1.segments.getLast?.map fun sg => sg.scte35_duration)
        = some s.current_cue_out_duration ∧
    ((finalize_segment d s u).1.segments.getLast?.map fun sg => sg.scte35_elapsedtime)
        = some s.current_cue_out_elapsedtime ∧
    (finalize_segment d s u).2.current_cue_out_scte35
        = (if s.cue_out then s.current_cue_out_scte35 else none) ∧
    (finalize_segment d s u).2.current_cue_out_oatcls_scte35
        = (if s.cue_out then s.current_cue_out_oatcls_scte35 else none) ∧
    (finalize_segment d s u).2.current_cue_out_duration
        = (if s.cue_out then s.current_cue_out_duration else none) ∧
    (finalize_segment d s u).2.current_cue_out_elapsedtime
        = (if s.cue_out then s.current_cue_out_elapsedtime else none) ∧
    (s.asset_metadata ≠ [] →
      ((finalize_segment d s u).1.segments.getLast?.map fun sg => sg.asset_metadata)
        = some s.asset_metadata) ∧
    (finalize_segment d s u).2.asset_metadata
        = (if s.cue_out then s.asset_metadata else []) := by
  refine ⟨?_, ?_, ?_, ?_, ?_, ?_, ?_, ?_, ?_, ?_⟩ <;>
    simp [finalize_segment]
  intro h
  simp [h]

/-- Witness for C1 at a concrete state carrying pending asset metadata
inside an open cue-out span. -/
def c1wState : ParserState :=
  { ParserState.init with
    cue_out := true
    asset_metadata := [⟨("k".toList), ("v".toList)⟩]
    current_cue_out_scte35 := some ("payload".toList) }

/-- C1 witness: the hypotheses of `C1_scte35_asset_ownership` hold at
`c1wState` and the segment receives the pending asset metadata. -/
theorem C1_scte35_asset_ownership_witness :
    ((finalize_segment M3U8Data.empty c1wState ("u.ts".toList)).1.segments.getLast?.map
        fun sg => sg.asset_metadata) = some c1wState.asset_metadata :=
  (C1_scte35_asset_ownership M3U8Data.empty c1wState ("u.ts".toList)).2.2.2.2.2.2.2.2.1
    (by decide)

/-- `handle_cue_out_cont` re-asserts `cue_out` and never touches
`cue_out_start`, in every attribute configuration. -/
theorem handle_cue_out_cont_cue_flags (s : ParserState) (line : List Char) :
    (handle_cue_out_cont s line).cue_out = true ∧
    (handle_cue_out_cont s line).cue_out_start = s.cue_out_start := by
  unfold handle_cue_out_cont
  lift_lets
  extract_lets s1 k
  split
  · extract_lets attrs s2 s3 s4
    have h2 : s2.cue_out = true ∧ s2.cue_out_start = s.cue_out_start := by
      unfold s2 s1
      split
      · lift_lets
        extract_lets j
        split <;> exact ⟨rfl, rfl⟩
      · exact ⟨rfl, rfl⟩
    have h3 : s3.cue_out = true ∧ s3.cue_out_start = s.cue_out_start := by
      unfold s3
      split <;> exact h2
    have h4 : s4.cue_out = true ∧ s4.cue_out_start = s.cue_out_start := by
      unfold s4
      split <;> exact h3
    split
    · exact ⟨h4.1, h4.2⟩
    · exact h4
  · exact ⟨rfl, rfl⟩

/-- C4: `finalize_segment` resets `cue_out` and `cue_out_start` after
every segment; `#EXT-X-CUE-OUT-CONT` re-sets `cue_out` without touching
`cue_out_start`; and a `#EXT-X-CUE-OUT` followed by two URI lines with no
intervening CONT tag marks only the first segment with
`cue_out` / `cue_out_start`. -/
theorem C4_cue_out_start_first_only (d : M3U8Data) (s : ParserState) (u line : List Char) :
    (finalize_segment d s u).2.cue_out = false ∧
    (finalize_segment d s u).2.cue_out_start = false ∧
    (handle_cue_out_cont s line).cue_out = true ∧
    (handle_cue_out_cont s line).cue_out_start = s.cue_out_start ∧
    ((m3u8_parse ("#EXT-X-CUE-OUT\n#EXTINF:1,\na.ts\n#EXTINF:1,\nb.ts".toList)).map fun doc =>
        doc.segments.map fun sg => (sg.cue_out, sg.cue_out_start)) =
      some [(true, true), (false, false)] :=
  ⟨rfl, rfl, (handle_cue_out_cont_cue_flags s line).1,
   (handle_cue_out_cont_cue_flags s line).2, by rfl⟩

/-- C9: `m3u8_parse` yields `NULL` exactly on missing input (the null
pointer of the C interface coincides with the empty buffer in this
model); every nonempty input, however malformed, produces a document —
the parser is total by construction, every loop consuming input. -/
theorem C9_parse_total_null_iff (content : List Char) :
    (m3u8_parse content = none ↔ content = []) ∧
    (content ≠ [] → (m3u8_parse content).isSome = true) := by
  constructor
  · unfold m3u8_parse
    constructor
    · intro h
      by_cases hl : content.length = 0
      · exact List.length_eq_zero.mp hl
      · simp [hl] at h
    · intro h
      subst h
      rfl
  · intro h
    unfold m3u8_parse
    simp [List.length_eq_zero, h]

/-- C9 witness: both directions at concrete inputs. -/
theorem C9_parse_total_null_iff_witness :
    (m3u8_parse ("#EXTM3U".toList)).isSome = true ∧ m3u8_parse [] = none :=
  ⟨(C9_parse_total_null_iff ("#EXTM3U".toList)).2 (by decide),
   (C9_parse_total_null_iff []).1.mpr rfl⟩

/-- C7 counterexample: with the attribute written exactly as the claim
states it — `BANDWIDTH="5000000.5"`, quotes included — the lexer keeps
the quotes in the raw value, `strtod` finds no conversion at the leading
quote and the Variant's bandwidth is 0, not 5000000. -/
theorem C7_quoted_bandwidth_counterexample :
    ((m3u8_parse ("#EXT-X-STREAM-INF:BANDWIDTH=\"5000000.5\"\nhi.m3u8".toList)).map
        fun doc => doc.playlists.map fun p => p.bandwidth) = some [0] ∧
    (0 : Int) ≠ 5000000 := by
  exact ⟨by rfl, by decide⟩

/-- C7 (amended): the float-to-integer tolerance applies to the unquoted
form `BANDWIDTH=5000000.5`, which parses through `strtod` to the exact
decimal 5000000.5 and truncates to the integer 5000000; the quoted form
keeps its quotes and yields bandwidth 0. -/
theorem C7_fractional_bandwidth_amended :
    ((m3u8_parse ("#EXT-X-STREAM-INF:BANDWIDTH=5000000.5\nhi.m3u8".toList)).map
        fun doc => doc.playlists.map fun p => p.bandwidth) = some [5000000] ∧
    strtodDec ("5000000.5".toList) = ⟨50000005, 1⟩ ∧
    Dec.trunc ⟨50000005, 1⟩ = 5000000 ∧
    ((m3u8_parse ("#EXT-X-STREAM-INF:BANDWIDTH=\"5000000.5\"\nhi.m3u8".toList)).map
        fun doc => doc.playlists.map fun p => p.bandwidth) = some [0] := by
  exact ⟨by rfl, by rfl, by rfl, by rfl⟩

/-- An exact occurrence of `DURATION` or `duration` anywhere in the line
is found by the scan of `handle_cue_out`. -/
theorem hasDurationToken_append (pre post tok : List Char)
    (htok : tok = ("DURATION".toList) ∨ tok = ("duration".toList)) :
    hasDurationToken (pre ++ (tok ++ post)) = true := by
  induction pre with
  | nil =>
    simp only [List.nil_append]
    rcases htok with h | h <;> subst h
    · show hasDurationToken ('D' :: (("URATION".toList) ++ post)) = true
      simp only [hasDurationToken]
      have htake : (('D' :: (("URATION".toList) ++ post)).take 8) = ("DURATION".toList) := by
        have he : ('D' :: (("URATION".toList) ++ post)) = ("DURATION".toList) ++ post := rfl
        rw [he, show (8 : Nat) = ("DURATION".toList).length from rfl, List.take_left]
      rw [if_pos ⟨by decide, Or.inl htake⟩]
    · show hasDurationToken ('d' :: (("uration".toList) ++ post)) = true
      simp only [hasDurationToken]
      have htake : (('d' :: (("uration".toList) ++ post)).take 8) = ("duration".toList) := by
        have he : ('d' :: (("uration".toList) ++ post)) = ("duration".toList) ++ post := rfl
        rw [he, show (8 : Nat) = ("duration".toList).length from rfl, List.take_left]
      rw [if_pos ⟨by decide, Or.inr htake⟩]
  | cons c pre ih =>
    show hasDurationToken (c :: (pre ++ (tok ++ post))) = true
    simp only [hasDurationToken]
    split
    · rfl
    · exact ih

/-- C5 counterexample: the mixed-case spelling `Duration` — which the
claim includes — does not set the flag: the scan compares only against
the two exact spellings `DURATION` and `duration`. -/
theorem C5_mixed_case_duration_counterexample :
    ((m3u8_parse ("#EXT-X-CUE-OUT:Duration=30\n#EXTINF:1,\na.ts".toList)).map
        fun doc => doc.segments.map fun sg => sg.cue_out_explicitly_duration) = some [false] := by
  rfl

/-- C5 (amended): a `#EXT-X-CUE-OUT` line longer than 12 bytes whose text
contains the exact substring `DURATION` or the exact substring `duration`
(all-uppercase or all-lowercase, not other case mixtures) sets
`cue_out_explicitly_duration`, and the next finalized segment carries the
flag. -/
theorem C5_duration_token_amended (s : ParserState) (line pre post : List Char)
    (hlen : 12 < line.length)
    (hline : line = pre ++ (("DURATION".toList) ++ post) ∨
             line = pre ++ (("duration".toList) ++ post)) :
    (handle_cue_out s line).cue_out_explicitly_duration = true ∧
    ((m3u8_parse ("#EXT-X-CUE-OUT:duration=30\n#EXTINF:1,\na.ts".toList)).map
        fun doc => doc.segments.map fun sg => sg.cue_out_explicitly_duration) = some [true] := by
  have hdur : hasDurationToken line = true := by
    rcases hline with h | h <;> subst h
    · exact hasDurationToken_append _ _ _ (Or.inl rfl)
    · exact hasDurationToken_append _ _ _ (Or.inr rfl)
  refine ⟨?_, by rfl⟩
  unfold handle_cue_out
  lift_lets
  extract_lets s1 s2 k
  have h2 : s2.cue_out_explicitly_duration = true := by
    unfold s2
    rw [if_pos ⟨hlen, hdur⟩]
  split
  · extract_lets attrs s3 dur
    have h3 : s3.cue_out_explicitly_duration = true := by
      unfold s3
      split <;> exact h2
    clear_value dur
    cases dur <;> exact h3
  · exact h2

/-- C5 witness: the amended theorem applied at a concrete all-uppercase
`DURATION` line. -/
theorem C5_duration_token_amended_witness :
    (handle_cue_out ParserState.init ("#EXT-X-CUE-OUT:DURATION=30".toList)).cue_out_explicitly_duration = true :=
  (C5_duration_token_amended ParserState.init ("#EXT-X-CUE-OUT:DURATION=30".toList)
    ("#EXT-X-CUE-OUT:".toList) ("=30".toList) (by decide) (Or.inl (by rfl))).1

/-- Arithmetic on `Char.ofNat` below the ASCII range. -/
theorem char_toNat_ofNat (n : Nat) (h : n < 128) : (Char.ofNat n).toNat = n := by
  have hv : n < 55296 ∨ 57343 < n ∧ n < 1114112 := Or.inl (by omega)
  simp only [Char.ofNat, hv, dite_true, Char.ofNatAux, Char.toNat]
  simp [UInt32.ofNat, Fin.ofNat, BitVec.ofNat, Fin.ofNat', UInt32.toNat]

/-- Every character of a normalized attribute name is neither an
uppercase ASCII letter nor a hyphen: `-` becomes `_`, uppercase letters
gain 32, and every other character — `.`- or space-like ones included —
passes through `tolower` unchanged. -/
theorem mem_normalize_attr_name (x : List Char) (c : Char)
    (hc : c ∈ normalize_attr_name x) : ¬('A' ≤ c ∧ c ≤ 'Z') ∧ c ≠ '-' := by
  unfold normalize_attr_name trimTrailWs at hc
  rw [List.mem_reverse] at hc
  have hc2 : c ∈ (x.map fun c => if c == '-' then '_' else toLowerC c).reverse :=
    (List.dropWhile_sublist _).mem hc
  rw [List.mem_reverse, List.mem_map] at hc2
  obtain ⟨a, _, ha⟩ := hc2
  subst ha
  by_cases hd : a == '-'
  · rw [if_pos hd]
    exact ⟨by decide, by decide⟩
  · rw [if_neg hd]
    unfold toLowerC
    by_cases hu : 'A' ≤ a ∧ a ≤ 'Z'
    · rw [if_pos hu]
      have h65 : ('A' : Char).toNat ≤ a.toNat := hu.1
      have h90 : a.toNat ≤ ('Z' : Char).toNat := hu.2
      have hA : ('A' : Char).toNat = 65 := rfl
      have hZ : ('Z' : Char).toNat = 90 := rfl
      have ht : (Char.ofNat (a.toNat + 32)).toNat = a.toNat + 32 :=
        char_toNat_ofNat _ (by omega)
      constructor
      · rintro ⟨-, h2⟩
        have hle : (Char.ofNat (a.toNat + 32)).toNat ≤ ('Z' : Char).toNat := h2
        omega
      · intro he
        have heq : (Char.ofNat (a.toNat + 32)).toNat = ('-' : Char).toNat := by rw [he]
        have hd45 : ('-' : Char).toNat = 45 := rfl
        omega
    · rw [if_neg hu]
      refine ⟨hu, ?_⟩
      intro he
      subst he
      simp at hd

/-- Key property of the lexer at every fuel level: produced keys are
either empty (bare values) or outputs of `normalize_attr_name`. -/
theorem parse_attributes_fuel_key_chars (fuel : Nat) :
    ∀ l a, a ∈ parse_attributes_fuel fuel l → ∀ c ∈ a.key,
      ¬('A' ≤ c ∧ c ≤ 'Z') ∧ c ≠ '-' := by
  induction fuel with
  | zero =>
    intro l a ha
    simp [parse_attributes_fuel] at ha
  | succ n ih =>
    intro l a ha c hc
    simp only [parse_attributes_fuel] at ha
    split at ha
    · simp at ha
    · split at ha
      · split at ha
        · exact ih _ _ ha c hc
        · rcases List.mem_cons.mp ha with h | h
          · subst h
            simp at hc
          · exact ih _ _ h c hc
      · split at ha
        · split at ha
          · rcases List.mem_cons.mp ha with h | h
            · subst h
              exact mem_normalize_attr_name _ _ hc
            · exact ih _ _ h c hc
          · rcases List.mem_cons.mp ha with h | h
            · subst h
              exact mem_normalize_attr_name _ _ hc
            · exact ih _ _ h c hc
        · rcases List.mem_cons.mp ha with h | h
          · subst h
            exact mem_normalize_attr_name _ _ hc
          · simp at h
      · split at ha
        · simp at ha
        · rcases List.mem_cons.mp ha with h | h
          · subst h
            simp at hc
          · simp at h

/-- C6 counterexample: the input key `A.B` normalizes to `a.b`; the dot
survives normalization and lies outside `[a-z0-9_]`, refuting the claimed
character-set invariant. -/
theorem C6_key_charset_counterexample :
    ((parse_attributes ("A.B=1".toList)).map fun a => a.key) = [['a', '.', 'b']] ∧
    ('.' ∈ (['a', '.', 'b'] : List Char)) ∧
    ¬(('a' ≤ '.' ∧ '.' ≤ 'z') ∨ ('0' ≤ '.' ∧ '.' ≤ '9') ∨ '.' = '_') :=
  ⟨by rfl, by decide, by decide⟩

/-- C6 (amended): every character of every attribute key produced by the
lexer is neither an uppercase ASCII letter nor a hyphen — hyphens become
underscores and uppercase letters are lowercased — but any other
character of the input survives normalization unchanged, so normalized
keys are confined to `[a-z0-9_]` only when the raw key characters were
alphanumeric, underscore or hyphen. -/
theorem C6_key_chars_amended (l : List Char) (a : M3U8Attribute)
    (ha : a ∈ parse_attributes l) (c : Char) (hc : c ∈ a.key) :
    ¬('A' ≤ c ∧ c ≤ 'Z') ∧ c ≠ '-' :=
  parse_attributes_fuel_key_chars (l.length + 1) l a ha c hc

/-- C6 witness: the amended theorem applied to the key `a.b` produced
from the concrete tag body `A.B=1`. -/
theorem C6_key_chars_amended_witness :
    ¬('A' ≤ '.' ∧ '.' ≤ 'Z') ∧ '.' ≠ '-' :=
  C6_key_chars_amended ("A.B=1".toList) ⟨['a', '.', 'b'], ['1']⟩
    (by decide) '.' (by decide)

/-- C8: a `#` line that none of the dispatcher's tag tests recognizes is
processed as a comment: both the document and the parser state are left
completely unchanged. -/
theorem C8_unknown_tag_ignored (d : M3U8Data) (s : ParserState) (line : List Char)
    (hhash : line.head? = some '#') (hrec : isRecognizedTag line = false) :
    processLine d s line = (d, s) := by
  simp only [isRecognizedTag, Bool.or_eq_false_iff] at hrec
  obtain ⟨⟨⟨⟨⟨⟨⟨⟨⟨⟨⟨⟨⟨⟨⟨⟨⟨⟨⟨⟨⟨⟨⟨⟨⟨⟨⟨⟨⟨⟨⟨⟨⟨⟨⟨⟨⟨⟨⟨⟨⟨h1, h2⟩, h3⟩, h4⟩, h5⟩, h6⟩, h7⟩, h8⟩, h9⟩, h10⟩, h11⟩, h12⟩, h13⟩, h14⟩, h15⟩, h16⟩, h17⟩, h18⟩, h19⟩, h20⟩, h21⟩, h22⟩, h23⟩, h24⟩, h25⟩, h26⟩, h27⟩, h28⟩, h29⟩, h30⟩, h31⟩, h32⟩, h33⟩, h34⟩, h35⟩, h36⟩, h37⟩, h38⟩, h39⟩, h40⟩, h41⟩, h42⟩ := hrec
  simp only [processLine, hhash, h1, h2, h3, h4, h5, h6, h7, h8, h9, h10, h11, h12, h13, h14, h15, h16, h17, h18, h19, h20, h21, h22, h23, h24, h25, h26, h27, h28, h29, h30, h31, h32, h33, h34, h35, h36, h37, h38, h39, h40, h41, h42, Bool.false_eq_true, if_false, if_true,
    reduceIte]

/-- C8 witness: an unknown tag line at the initial document and state. -/
theorem C8_unknown_tag_ignored_witness :
    processLine M3U8Data.empty ParserState.init ("#FOO".toList) =
      (M3U8Data.empty, ParserState.init) :=
  C8_unknown_tag_ignored M3U8Data.empty ParserState.init ("#FOO".toList) (by rfl) (by decide)

/-- Validity of the key / init-section references of one segment with
respect to the document's owning collections (pointer identity as
index-into-collection). -/
def SegRefsOk (d : M3U8Data) (seg : M3U8Segment) : Prop :=
  (∀ i, seg.key = some i → i < d.keys.length) ∧
  (∀ j, seg.init_section = some j → j < d.segment_map.length)

/-- The in-progress segment never carries key, init-section or daterange
data of its own: those attach only at finalization. -/
def CurSegOk (s : ParserState) : Prop :=
  (s.current_segment.getD M3U8Segment.empty).key = none ∧
  (s.current_segment.getD M3U8Segment.empty).init_section = none ∧
  (s.current_segment.getD M3U8Segment.empty).dateranges = []

/-- Invariant maintained by every step of the parse loop: the current key
(resp. map) is the index of the last element of the document's `keys`
(resp. `segment_map`) collection when one exists; every finalized
segment's references point into the collections; and the in-progress
segment carries no reference or daterange data. -/
def StateInv (d : M3U8Data) (s : ParserState) : Prop :=
  (∀ i, s.current_key = some i → i + 1 = d.keys.length) ∧
  (∀ j, s.current_map = some j → j + 1 = d.segment_map.length) ∧
  (∀ seg ∈ d.segments, SegRefsOk d seg) ∧
  CurSegOk s

/-- `StateInv` transfers along equal core projections. -/
theorem stateInv_mono {d d' : M3U8Data} {s s' : ParserState}
    (hk : d'.keys = d.keys) (hm : d'.segment_map = d.segment_map)
    (hsg : d'.segments = d.segments)
    (hck : s'.current_key = s.current_key) (hcm : s'.current_map = s.current_map)
    (hcs : s'.current_segment = s.current_segment)
    (h : StateInv d s) : StateInv d' s' := by
  unfold StateInv SegRefsOk CurSegOk at h ⊢
  rw [hk, hm, hsg, hck, hcm, hcs]
  exact h

/-- `handle_cue_out` changes no core field. -/
theorem handle_cue_out_core (s : ParserState) (line : List Char) :
    (handle_cue_out s line).current_key = s.current_key ∧
    (handle_cue_out s line).current_map = s.current_map ∧
    (handle_cue_out s line).current_segment = s.current_segment := by
  unfold handle_cue_out
  lift_lets
  extract_lets s1 s2 k
  have h2 : s2.current_key = s.current_key ∧ s2.current_map = s.current_map ∧
      s2.current_segment = s.current_segment := by
    unfold s2 s1
    split <;> exact ⟨rfl, rfl, rfl⟩
  split
  · extract_lets attrs s3 dur
    have h3 : s3.current_key = s.current_key ∧ s3.current_map = s.current_map ∧
        s3.current_segment = s.current_segment := by
      unfold s3
      split <;> exact h2
    clear_value dur
    cases dur <;> exact h3
  · exact h2

/-- `handle_cue_out_cont` changes no core field. -/
theorem handle_cue_out_cont_core (s : ParserState) (line : List Char) :
    (handle_cue_out_cont s line).current_key = s.current_key ∧
    (handle_cue_out_cont s line).current_map = s.current_map ∧
    (handle_cue_out_cont s line).current_segment = s.current_segment := by
  unfold handle_cue_out_cont
  lift_lets
  extract_lets s1 k
  split
  · extract_lets attrs s2 s3 s4
    have h2 : s2.current_key = s.current_key ∧ s2.current_map = s.current_map ∧
        s2.current_segment = s.current_segment := by
      unfold s2 s1
      split
      · lift_lets
        extract_lets j
        split <;> exact ⟨rfl, rfl, rfl⟩
      · exact ⟨rfl, rfl, rfl⟩
    have h3 : s3.current_key = s.current_key ∧ s3.current_map = s.current_map ∧
        s3.current_segment = s.current_segment := by
      unfold s3
      split <;> exact h2
    have h4 : s4.current_key = s.current_key ∧ s4.current_map = s.current_map ∧
        s4.current_segment = s.current_segment := by
      unfold s4
      split <;> exact h3
    split
    · exact h4
    · exact h4
  · exact ⟨rfl, rfl, rfl⟩

/-- `handle_blackout` changes no core field. -/
theorem handle_blackout_core (s : ParserState) (line : List Char) :
    (handle_blackout s line).current_key = s.current_key ∧
    (handle_blackout s line).current_map = s.current_map ∧
    (handle_blackout s line).current_segment = s.current_segment := by
  unfold handle_blackout
  lift_lets
  extract_lets k
  split <;> exact ⟨rfl, rfl, rfl⟩

/-- `handle_oatcls_scte35` changes no core field. -/
theorem handle_oatcls_scte35_core (s : ParserState) (line : List Char) :
    (handle_oatcls_scte35 s line).current_key = s.current_key ∧
    (handle_oatcls_scte35 s line).current_map = s.current_map ∧
    (handle_oatcls_scte35 s line).current_segment = s.current_segment := by
  unfold handle_oatcls_scte35
  lift_lets
  extract_lets k
  split
  · exact ⟨rfl, rfl, rfl⟩
  · exact ⟨rfl, rfl, rfl⟩

/-- `handle_asset` changes no core field. -/
theorem handle_asset_core (s : ParserState) (line : List Char) :
    (handle_asset s line).current_key = s.current_key ∧
    (handle_asset s line).current_map = s.current_map ∧
    (handle_asset s line).current_segment = s.current_segment := by
  unfold handle_asset
  lift_lets
  extract_lets k
  split <;> exact ⟨rfl, rfl, rfl⟩

/-- `handle_preload_hint` touches no collection used by the invariant. -/
theorem handle_preload_hint_core (d : M3U8Data) (line : List Char) :
    (handle_preload_hint d line).keys = d.keys ∧
    (handle_preload_hint d line).segment_map = d.segment_map ∧
    (handle_preload_hint d line).segments = d.segments := by
  unfold handle_preload_hint
  lift_lets
  extract_lets attrs d1 d2 d3
  have h2 : d2.keys = d.keys ∧ d2.segment_map = d.segment_map ∧ d2.segments = d.segments := by
    unfold d2 d1
    split <;> exact ⟨rfl, rfl, rfl⟩
  have h3 : d3.keys = d.keys ∧ d3.segment_map = d.segment_map ∧ d3.segments = d.segments := by
    unfold d3
    split <;> exact h2
  exact h3

/-- `handle_rendition_report` touches no collection used by the
invariant. -/
theorem handle_rendition_report_core (d : M3U8Data) (line : List Char) :
    (handle_rendition_report d line).keys = d.keys ∧
    (handle_rendition_report d line).segment_map = d.segment_map ∧
    (handle_rendition_report d line).segments = d.segments := by
  unfold handle_rendition_report
  lift_lets
  extract_lets attrs base r1 r2
  exact ⟨by rfl, by rfl, by rfl⟩

/-- `handle_key` keeps the invariant: the new key is appended at the tail
and becomes current by its index. -/
theorem stateInv_handle_key (d : M3U8Data) (s : ParserState) (line : List Char)
    (h : StateInv d s) :
    StateInv (handle_key d s line).1 (handle_key d s line).2 := by
  obtain ⟨hk, hm, hsegs, hcs⟩ := h
  have hlen : (handle_key d s line).1.keys.length = d.keys.length + 1 := by
    simp [handle_key]
  refine ⟨?_, hm, ?_, hcs⟩
  · intro i hi
    have hi' : some d.keys.length = some i := hi
    cases hi'
    omega
  · intro seg hseg
    have hseg' : seg ∈ d.segments := hseg
    obtain ⟨h1, h2⟩ := hsegs seg hseg'
    refine ⟨?_, h2⟩
    intro i hi
    have := h1 i hi
    omega

/-- `handle_map` keeps the invariant. -/
theorem stateInv_handle_map (d : M3U8Data) (s : ParserState) (line : List Char)
    (h : StateInv d s) :
    StateInv (handle_map d s line).1 (handle_map d s line).2 := by
  obtain ⟨hk, hm, hsegs, hcs⟩ := h
  have hlen : (handle_map d s line).1.segment_map.length = d.segment_map.length + 1 := by
    simp [handle_map]
  refine ⟨hk, ?_, ?_, hcs⟩
  · intro j hj
    have hj' : some d.segment_map.length = some j := hj
    cases hj'
    omega
  · intro seg hseg
    have hseg' : seg ∈ d.segments := hseg
    obtain ⟨h1, h2⟩ := hsegs seg hseg'
    refine ⟨h1, ?_⟩
    intro j hj
    have := h2 j hj
    omega

/-- `handle_extinf` keeps the invariant: the (possibly fresh) in-progress
segment still carries no key, init-section or dateranges. -/
theorem stateInv_handle_extinf (d : M3U8Data) (s : ParserState) (line : List Char)
    (h : StateInv d s) : StateInv d (handle_extinf s line) := by
  obtain ⟨hk, hm, hsegs, hcs⟩ := h
  obtain ⟨hc1, hc2, hc3⟩ := hcs
  refine ⟨hk, hm, hsegs, ?_⟩
  unfold CurSegOk handle_extinf
  lift_lets
  extract_lets p seg0 seg1 k t seg2
  have h1 : seg1.key = none ∧ seg1.init_section = none ∧ seg1.dateranges = [] := by
    unfold seg1 seg0
    exact ⟨hc1, hc2, hc3⟩
  have h2 : seg2.key = none ∧ seg2.init_section = none ∧ seg2.dateranges = [] := by
    unfold seg2
    split
    · split
      · exact h1
      · exact h1
    · exact h1
  exact ⟨h2.1, h2.2.1, h2.2.2⟩

/-- `handle_byterange` keeps the invariant. -/
theorem stateInv_handle_byterange (d : M3U8Data) (s : ParserState) (line : List Char)
    (h : StateInv d s) : StateInv d (handle_byterange s line) := by
  obtain ⟨hk, hm, hsegs, ⟨hc1, hc2, hc3⟩⟩ := h
  exact ⟨hk, hm, hsegs, ⟨hc1, hc2, hc3⟩⟩

/-- `handle_bitrate` keeps the invariant. -/
theorem stateInv_handle_bitrate (d : M3U8Data) (s : ParserState) (line : List Char)
    (h : StateInv d s) : StateInv d (handle_bitrate s line) := by
  obtain ⟨hk, hm, hsegs, ⟨hc1, hc2, hc3⟩⟩ := h
  exact ⟨hk, hm, hsegs, ⟨hc1, hc2, hc3⟩⟩

/-- `handle_part` keeps the invariant: the part is appended to the
in-progress segment's parts list, which touches none of its reference
fields, and the pending dateranges move into the part, not the
segment. -/
theorem stateInv_handle_part (d : M3U8Data) (s : ParserState) (line : List Char)
    (h : StateInv d s) : StateInv d (handle_part s line) := by
  obtain ⟨hk, hm, hsegs, ⟨hc1, hc2, hc3⟩⟩ := h
  exact ⟨hk, hm, hsegs, ⟨hc1, hc2, hc3⟩⟩

/-- `finalize_segment` keeps the invariant: the appended segment receives
exactly the current key / map indices, which point at the last elements
of the collections. -/
theorem stateInv_finalize_segment (d : M3U8Data) (s : ParserState) (u : List Char)
    (h : StateInv d s) :
    StateInv (finalize_segment d s u).1 (finalize_segment d s u).2 := by
  obtain ⟨hk, hm, hsegs, -⟩ := h
  refine ⟨hk, hm, ?_, ⟨rfl, rfl, rfl⟩⟩
  intro seg hseg
  simp only [finalize_segment] at hseg
  rcases List.mem_append.mp hseg with hold | hnew
  · obtain ⟨h1, h2⟩ := hsegs seg hold
    exact ⟨h1, h2⟩
  · rcases List.mem_singleton.mp hnew with rfl
    constructor
    · intro i hi
      have hi' : s.current_key = some i := hi
      have := hk i hi'
      show i < d.keys.length
      omega
    · intro j hj
      have hj' : s.current_map = some j := hj
      have := hm j hj'
      show j < d.segment_map.length
      omega

/-- `finalize_playlist` keeps the invariant. -/
theorem stateInv_finalize_playlist (d : M3U8Data) (s : ParserState) (u : List Char)
    (h : StateInv d s) :
    StateInv (finalize_playlist d s u).1 (finalize_playlist d s u).2 := by
  refine stateInv_mono ?_ ?_ ?_ ?_ ?_ ?_ h <;>
    · unfold finalize_playlist
      lift_lets
      extract_lets s1
      split
      · rfl
      · extract_lets si pl
        rfl

set_option maxHeartbeats 1000000 in
/-- Every step of the dispatcher preserves the invariant. -/
theorem stateInv_processLine (d : M3U8Data) (s : ParserState) (line : List Char)
    (h : StateInv d s) :
    StateInv (processLine d s line).1 (processLine d s line).2 := by
  unfold processLine
  by_cases c0 : line.head? = some '#'
  · rw [if_pos c0]
    by_cases c1 : starts_with line ("#EXTM3U".toList) = true
    · rw [if_pos c1]
      exact h
    · rw [if_neg c1]
      by_cases c2 : starts_with line ("#EXTINF:".toList) = true
      · rw [if_pos c2]
        exact stateInv_handle_extinf d s line h
      · rw [if_neg c2]
        by_cases c3 : starts_with line ("#EXT-X-TARGETDURATION:".toList) = true
        · rw [if_pos c3]
          exact stateInv_mono rfl rfl rfl rfl rfl rfl h
        · rw [if_neg c3]
          by_cases c4 : starts_with line ("#EXT-X-MEDIA-SEQUENCE:".toList) = true
          · rw [if_pos c4]
            exact stateInv_mono rfl rfl rfl rfl rfl rfl h
          · rw [if_neg c4]
            by_cases c5 : starts_with line ("#EXT-X-DISCONTINUITY-SEQUENCE:".toList) = true
            · rw [if_pos c5]
              exact stateInv_mono rfl rfl rfl rfl rfl rfl h
            · rw [if_neg c5]
              by_cases c6 : starts_with line ("#EXT-X-VERSION:".toList) = true
              · rw [if_pos c6]
                exact stateInv_mono rfl rfl rfl rfl rfl rfl h
              · rw [if_neg c6]
                by_cases c7 : starts_with line ("#EXT-X-ALLOW-CACHE:".toList) = true
                · rw [if_pos c7]
                  exact stateInv_mono rfl rfl rfl rfl rfl rfl h
                · rw [if_neg c7]
                  by_cases c8 : starts_with line ("#EXT-X-PLAYLIST-TYPE:".toList) = true
                  · rw [if_pos c8]
                    exact stateInv_mono rfl rfl rfl rfl rfl rfl h
                  · rw [if_neg c8]
                    by_cases c9 : starts_with line ("#EXT-X-PROGRAM-DATE-TIME:".toList) = true
                    · rw [if_pos c9]
                      exact stateInv_mono rfl rfl rfl rfl rfl rfl h
                    · rw [if_neg c9]
                      by_cases c10 : starts_with line ("#EXT-X-ENDLIST".toList) = true
                      · rw [if_pos c10]
                        exact stateInv_mono rfl rfl rfl rfl rfl rfl h
                      · rw [if_neg c10]
                        by_cases c11 : starts_with line ("#EXT-X-I-FRAMES-ONLY".toList) = true
                        · rw [if_pos c11]
                          exact stateInv_mono rfl rfl rfl rfl rfl rfl h
                        · rw [if_neg c11]
                          by_cases c12 : starts_with line ("#EXT-X-INDEPENDENT-SEGMENTS".toList) = true
                          · rw [if_pos c12]
                            exact stateInv_mono rfl rfl rfl rfl rfl rfl h
                          · rw [if_neg c12]
                            by_cases c13 : starts_with line ("#EXT-X-IMAGES-ONLY".toList) = true
                            · rw [if_pos c13]
                              exact stateInv_mono rfl rfl rfl rfl rfl rfl h
                            · rw [if_neg c13]
                              by_cases c14 : (starts_with line ("#EXT-X-DISCONTINUITY".toList) && !starts_with line ("#EXT-X-DISCONTINUITY-SEQUENCE".toList)) = true
                              · rw [if_pos c14]
                                exact stateInv_mono rfl rfl rfl rfl rfl rfl h
                              · rw [if_neg c14]
                                by_cases c15 : starts_with line ("#EXT-X-GAP".toList) = true
                                · rw [if_pos c15]
                                  exact stateInv_mono rfl rfl rfl rfl rfl rfl h
                                · rw [if_neg c15]
                                  by_cases c16 : starts_with line ("#EXT-X-BLACKOUT".toList) = true
                                  · rw [if_pos c16]
                                    exact stateInv_mono rfl rfl rfl (handle_blackout_core s line).1 (handle_blackout_core s line).2.1 (handle_blackout_core s line).2.2 h
                                  · rw [if_neg c16]
                                    by_cases c17 : starts_with line ("#EXT-X-CUE-IN".toList) = true
                                    · rw [if_pos c17]
                                      exact stateInv_mono rfl rfl rfl rfl rfl rfl h
                                    · rw [if_neg c17]
                                      by_cases c18 : starts_with line ("#EXT-X-CUE-SPAN".toList) = true
                                      · rw [if_pos c18]
                                        exact stateInv_mono rfl rfl rfl rfl rfl rfl h
                                      · rw [if_neg c18]
                                        by_cases c19 : starts_with line ("#EXT-X-CUE-OUT-CONT".toList) = true
                                        · rw [if_pos c19]
                                          exact stateInv_mono rfl rfl rfl (handle_cue_out_cont_core s line).1 (handle_cue_out_cont_core s line).2.1 (handle_cue_out_cont_core s line).2.2 h
                                        · rw [if_neg c19]
                                          by_cases c20 : starts_with line ("#EXT-X-CUE-OUT".toList) = true
                                          · rw [if_pos c20]
                                            exact stateInv_mono rfl rfl rfl (handle_cue_out_core s line).1 (handle_cue_out_core s line).2.1 (handle_cue_out_core s line).2.2 h
                                          · rw [if_neg c20]
                                            by_cases c21 : starts_with line ("#EXT-OATCLS-SCTE35:".toList) = true
                                            · rw [if_pos c21]
                                              exact stateInv_mono rfl rfl rfl (handle_oatcls_scte35_core s line).1 (handle_oatcls_scte35_core s line).2.1 (handle_oatcls_scte35_core s line).2.2 h
                                            · rw [if_neg c21]
                                              by_cases c22 : starts_with line ("#EXT-X-ASSET:".toList) = true
                                              · rw [if_pos c22]
                                                exact stateInv_mono rfl rfl rfl (handle_asset_core s line).1 (handle_asset_core s line).2.1 (handle_asset_core s line).2.2 h
                                              · rw [if_neg c22]
                                                by_cases c23 : starts_with line ("#EXT-X-KEY:".toList) = true
                                                · rw [if_pos c23]
                                                  exact stateInv_handle_key d s line h
                                                · rw [if_neg c23]
                                                  by_cases c24 : starts_with line ("#EXT-X-SESSION-KEY:".toList) = true
                                                  · rw [if_pos c24]
                                                    exact stateInv_mono rfl rfl rfl rfl rfl rfl h
                                                  · rw [if_neg c24]
                                                    by_cases c25 : starts_with line ("#EXT-X-MAP:".toList) = true
                                                    · rw [if_pos c25]
                                                      exact stateInv_handle_map d s line h
                                                    · rw [if_neg c25]
                                                      by_cases c26 : starts_with line ("#EXT-X-BYTERANGE:".toList) = true
                                                      · rw [if_pos c26]
                                                        exact stateInv_handle_byterange d s line h
                                                      · rw [if_neg c26]
                                                        by_cases c27 : starts_with line ("#EXT-X-BITRATE:".toList) = true
                                                        · rw [if_pos c27]
                                                          exact stateInv_handle_bitrate d s line h
                                                        · rw [if_neg c27]
                                                          by_cases c28 : starts_with line ("#EXT-X-DATERANGE:".toList) = true
                                                          · rw [if_pos c28]
                                                            exact stateInv_mono rfl rfl rfl rfl rfl rfl h
                                                          · rw [if_neg c28]
                                                            by_cases c29 : starts_with line ("#EXT-X-STREAM-INF:".toList) = true
                                                            · rw [if_pos c29]
                                                              exact stateInv_mono rfl rfl rfl rfl rfl rfl h
                                                            · rw [if_neg c29]
                                                              by_cases c30 : starts_with line ("#EXT-X-I-FRAME-STREAM-INF:".toList) = true
                                                              · rw [if_pos c30]
                                                                exact stateInv_mono rfl rfl rfl rfl rfl rfl h
                                                              · rw [if_neg c30]
                                                                by_cases c31 : starts_with line ("#EXT-X-IMAGE-STREAM-INF:".toList) = true
                                                                · rw [if_pos c31]
                                                                  exact stateInv_mono rfl rfl rfl rfl rfl rfl h
                                                                · rw [if_neg c31]
                                                                  by_cases c32 : starts_with line ("#EXT-X-MEDIA:".toList) = true
                                                                  · rw [if_pos c32]
                                                                    exact stateInv_mono rfl rfl rfl rfl rfl rfl h
                                                                  · rw [if_neg c32]
                                                                    by_cases c33 : starts_with line ("#EXT-X-START:".toList) = true
                                                                    · rw [if_pos c33]
                                                                      exact stateInv_mono rfl rfl rfl rfl rfl rfl h
                                                                    · rw [if_neg c33]
                                                                      by_cases c34 : starts_with line ("#EXT-X-SERVER-CONTROL:".toList) = true
                                                                      · rw [if_pos c34]
                                                                        exact stateInv_mono rfl rfl rfl rfl rfl rfl h
                                                                      · rw [if_neg c34]
                                                                        by_cases c35 : starts_with line ("#EXT-X-PART-INF:".toList) = true
                                                                        · rw [if_pos c35]
                                                                          exact stateInv_mono rfl rfl rfl rfl rfl rfl h
                                                                        · rw [if_neg c35]
                                                                          by_cases c36 : starts_with line ("#EXT-X-SKIP:".toList) = true
                                                                          · rw [if_pos c36]
                                                                            exact stateInv_mono rfl rfl rfl rfl rfl rfl h
                                                                          · rw [if_neg c36]
                                                                            by_cases c37 : starts_with line ("#EXT-X-RENDITION-REPORT:".toList) = true
                                                                            · rw [if_pos c37]
                                                                              exact stateInv_mono rfl rfl rfl rfl rfl rfl h
                                                                            · rw [if_neg c37]
                                                                              by_cases c38 : starts_with line ("#EXT-X-SESSION-DATA:".toList) = true
                                                                              · rw [if_pos c38]
                                                                                exact stateInv_mono rfl rfl rfl rfl rfl rfl h
                                                                              · rw [if_neg c38]
                                                                                by_cases c39 : starts_with line ("#EXT-X-PRELOAD-HINT:".toList) = true
                                                                                · rw [if_pos c39]
                                                                                  exact stateInv_mono (handle_preload_hint_core d line).1 (handle_preload_hint_core d line).2.1 (handle_preload_hint_core d line).2.2 rfl rfl rfl h
                                                                                · rw [if_neg c39]
                                                                                  by_cases c40 : starts_with line ("#EXT-X-CONTENT-STEERING:".toList) = true
                                                                                  · rw [if_pos c40]
                                                                                    exact stateInv_mono rfl rfl rfl rfl rfl rfl h
                                                                                  · rw [if_neg c40]
                                                                                    by_cases c41 : starts_with line ("#EXT-X-TILES:".toList) = true
                                                                                    · rw [if_pos c41]
                                                                                      exact stateInv_mono rfl rfl rfl rfl rfl rfl h
                                                                                    · rw [if_neg c41]
                                                                                      by_cases c42 : starts_with line ("#EXT-X-PART:".toList) = true
                                                                                      · rw [if_pos c42]
                                                                                        exact stateInv_handle_part d s line h
                                                                                      · rw [if_neg c42]
                                                                                        exact h
  · rw [if_neg c0]
    by_cases cu1 : s.expect_segment = true
    · rw [if_pos cu1]
      exact stateInv_finalize_segment d s line h
    · rw [if_neg cu1]
      by_cases cu2 : s.expect_playlist = true
      · rw [if_pos cu2]
        exact stateInv_finalize_playlist d s line h
      · rw [if_neg cu2]
        exact h

/-- The invariant holds after folding the dispatcher over any list of
logical lines from the zero-initialized document and state. -/
theorem stateInv_runLines (lines : List (List Char)) :
    StateInv (runLines lines).1 (runLines lines).2 := by
  have hinit : StateInv M3U8Data.empty ParserState.init := by
    refine ⟨?_, ?_, ?_, ⟨rfl, rfl, rfl⟩⟩
    · intro i hi
      cases hi
    · intro j hj
      cases hj
    · intro seg hs
      simp [M3U8Data.empty] at hs
  suffices hgen : ∀ (ls : List (List Char)) (p : M3U8Data × ParserState), StateInv p.1 p.2 →
      StateInv (ls.foldl (fun p line => processLine p.1 p.2 line) p).1
        (ls.foldl (fun p line => processLine p.1 p.2 line) p).2 by
    exact hgen lines (M3U8Data.empty, ParserState.init) hinit
  intro ls
  induction ls with
  | nil => intro p hp; exact hp
  | cons l rest ih =>
    intro p hp
    exact ih (processLine p.1 p.2 l) (stateInv_processLine p.1 p.2 l hp)

/-- Reference validity carries over to the finished document, the
end-of-input remnant segment (whose references are still null) included. -/
theorem segRefs_finishParse (lines : List (List Char)) :
    ∀ seg ∈ (finishParse (runLines lines)).segments,
      (∀ i, seg.key = some i → i < (finishParse (runLines lines)).keys.length) ∧
      (∀ j, seg.init_section = some j → j < (finishParse (runLines lines)).segment_map.length) := by
  obtain ⟨hk, hm, hsegs, ⟨hc1, hc2, hc3⟩⟩ := stateInv_runLines lines
  intro seg hs
  unfold finishParse at hs ⊢
  cases hcur : (runLines lines).2.current_segment with
  | none =>
    rw [hcur] at hs
    exact hsegs seg hs
  | some cs =>
    rw [hcur, Option.getD_some] at hc1 hc2
    rw [hcur] at hs
    have hs2 : seg ∈ (runLines lines).1.segments ++ [cs] := hs
    rcases List.mem_append.mp hs2 with hold | hnew
    · exact hsegs seg hold
    · rcases List.mem_singleton.mp hnew with rfl
      constructor
      · intro i hi
        rw [hc1] at hi
        cases hi
      · intro j hj
        rw [hc2] at hj
        cases hj

/-- C2 counterexample: with input `#EXT-X-KEY:...` then `#EXTINF:` and no
URI, the end-of-input remnant segment is appended with `key = none` even
though a `#EXT-X-KEY` tag preceded it — the claim's extension to
segments appended at end-of-input fails. -/
theorem C2_remnant_key_counterexample :
    ((m3u8_parse ("#EXT-X-KEY:METHOD=NONE\n#EXTINF:4,".toList)).map
        fun doc => (doc.keys.length, doc.segments.map fun sg => (sg.key, sg.init_section))) =
      some (1, [(none, none)]) := by
  rfl

/-- C2 (amended): every segment finalized at a URI line receives exactly
the current key and map references, which are the indices of the last
elements of the document's `keys` / `segment_map` collections (the most
recently parsed Key / Map), or null when none was parsed; all references
of returned segments point into the collections; the segment appended at
end-of-input without a URI has null key and init-section regardless of
preceding tags. -/
theorem C2_key_map_refs_amended :
    (∀ lines, StateInv (runLines lines).1 (runLines lines).2) ∧
    (∀ content doc, m3u8_parse content = some doc →
      ∀ seg ∈ doc.segments,
        (∀ i, seg.key = some i → i < doc.keys.length) ∧
        (∀ j, seg.init_section = some j → j < doc.segment_map.length)) ∧
    (∀ d s uri,
      ((finalize_segment d s uri).1.segments.getLast?.map fun sg => (sg.key, sg.init_section)) =
        some (s.current_key, s.current_map)) ∧
    (∀ lines cs, (runLines lines).2.current_segment = some cs →
      cs.key = none ∧ cs.init_section = none) := by
  refine ⟨stateInv_runLines, ?_, ?_, ?_⟩
  · intro content doc hp seg hs
    unfold m3u8_parse at hp
    by_cases hl : content.length = 0
    · rw [if_pos hl] at hp
      cases hp
    · rw [if_neg hl] at hp
      cases Option.some.inj hp
      exact segRefs_finishParse (splitLines content) seg hs
  · intro d s uri
    simp [finalize_segment, List.getLast?_concat]
  · intro lines cs hcs
    obtain ⟨-, -, -, ⟨hc1, hc2, -⟩⟩ := stateInv_runLines lines
    rw [hcs, Option.getD_some] at hc1 hc2
    exact ⟨hc1, hc2⟩

/-- The document of the C2 witness run: a key, then two segments. -/
def c2wDoc : M3U8Data :=
  finishParse (runLines (splitLines ("#EXT-X-KEY:METHOD=NONE\n#EXTINF:4,\na.ts".toList)))

/-- C2 witness: the amended theorem applied at a concrete input whose one
segment references the one parsed key. -/
theorem C2_key_map_refs_amended_witness : 0 < c2wDoc.keys.length := by
  have h2 := C2_key_map_refs_amended.2.1 ("#EXT-X-KEY:METHOD=NONE\n#EXTINF:4,\na.ts".toList)
    c2wDoc rfl
  have hex : ∃ seg ∈ c2wDoc.segments, seg.key = some 0 := by decide
  obtain ⟨seg, hmem, hk⟩ := hex
  exact (h2 seg hmem).1 0 hk

/-- C3 counterexample: a `#EXT-X-DATERANGE` tag never followed by a
segment: at the end of the parse loop the pending dateranges list still
holds the range (the C code then frees it), no segment exists, and the
range was attached to nothing — it is not attached to exactly one
segment and the pending list is not empty at end of parse. -/
theorem C3_pending_daterange_counterexample :
    (runLines (splitLines ("#EXT-X-DATERANGE:ID=1".toList))).2.dateranges.length = 1 ∧
    (m3u8_parse ("#EXT-X-DATERANGE:ID=1".toList)).map (fun doc => doc.segments.length) = some 0 := by
  exact ⟨rfl, rfl⟩

/-- C3 (amended): each pending DateRange is attached to at most one
record — the next Segment finalized (or the next `#EXT-X-PART`) — and
never leaks into a later one: finalization moves the whole pending list
into the finalized segment and empties it on state; the in-progress
segment never accumulates dateranges, so the end-of-input remnant
carries none; pending dateranges with no following segment are dropped,
never appearing in the returned document. -/
theorem C3_dateranges_amended :
    (∀ d s uri, (finalize_segment d s uri).2.dateranges = [] ∧
      ((finalize_segment d s uri).1.segments.getLast?.map fun sg => sg.dateranges) =
        some s.dateranges) ∧
    (∀ s line, (handle_part s line).dateranges = [] ∧
      (((handle_part s line).current_segment.getD M3U8Segment.empty).parts.getLast?.map
          fun pt => pt.dateranges) = some s.dateranges) ∧
    (∀ lines cs, (runLines lines).2.current_segment = some cs → cs.dateranges = []) ∧
    ((m3u8_parse ("#EXT-X-DATERANGE:ID=\"d1\"\n#EXTINF:4,\na.ts\n#EXTINF:4,\nb.ts".toList)).map
        fun doc => doc.segments.map fun sg => sg.dateranges.map fun dr => dr.id) =
      some [[some ("d1".toList)], []] := by
  refine ⟨?_, ?_, ?_, by rfl⟩
  · intro d s uri
    exact ⟨rfl, by simp [finalize_segment, List.getLast?_concat]⟩
  · intro s line
    refine ⟨rfl, ?_⟩
    simp [handle_part, List.getLast?_concat]
  · intro lines cs hcs
    obtain ⟨-, -, -, ⟨-, -, hc3⟩⟩ := stateInv_runLines lines
    rw [hcs, Option.getD_some] at hc3
    exact hc3

/-- C3 witness: the amended theorem's remnant clause at a concrete input
holding an unfinalized segment. -/
theorem C3_dateranges_amended_witness :
    ((runLines [("#EXTINF:4,".toList)]).2.current_segment.getD M3U8Segment.empty).dateranges
      = [] :=
  C3_dateranges_amended.2.2.1 [("#EXTINF:4,".toList)]
    ((runLines [("#EXTINF:4,".toList)]).2.current_segment.getD M3U8Segment.empty) (by rfl)

/-- The lexer yields the empty attribute list (a `NULL` list in C) on
whitespace-only input. -/
theorem parse_attributes_ws_nil (l : List Char) (h : ∀ c ∈ l, c = ' ' ∨ c = '\t') :
    parse_attributes l = [] := by
  have hd : l.dropWhile isWsC = [] := by
    rw [List.dropWhile_eq_nil_iff]
    intro c hc
    rcases h c hc with rfl | rfl <;> rfl
  unfold parse_attributes
  simp only [parse_attributes_fuel, hd]

/-- C10: when the text after `#EXT-X-STREAM-INF:` is empty or
whitespace-only, the staged attribute list is empty, so the URI line
that follows appends no Variant: the playlists collection is unchanged,
the URI is dropped, and `expect_playlist` is cleared. -/
theorem C10_empty_stream_inf_attrs (d : M3U8Data) (s : ParserState) (line uri : List Char)
    (hws : ∀ c ∈ line.drop 18, c = ' ' ∨ c = '\t')
    (hseg : s.expect_segment = false)
    (huri : ¬(uri.head? = some '#')) :
    (handle_stream_inf d s line).2.stream_info = [] ∧
    (handle_stream_inf d s line).2.expect_playlist = true ∧
    (handle_stream_inf d s line).1.playlists = d.playlists ∧
    (processLine (handle_stream_inf d s line).1 (handle_stream_inf d s line).2 uri).1.playlists
      = d.playlists ∧
    (processLine (handle_stream_inf d s line).1 (handle_stream_inf d s line).2 uri).2.expect_playlist
      = false ∧
    (processLine (handle_stream_inf d s line).1 (handle_stream_inf d s line).2 uri).2.stream_info
      = [] ∧
    ((m3u8_parse ("#EXT-X-STREAM-INF:\nhi.m3u8".toList)).map
        fun doc => (doc.playlists.length, doc.segments.length, doc.is_variant)) =
      some (0, 0, true) := by
  have hsi : (handle_stream_inf d s line).2.stream_info = [] :=
    parse_attributes_ws_nil (line.drop 18) hws
  have hes : ¬((handle_stream_inf d s line).2.expect_segment = true) := by
    have he : (handle_stream_inf d s line).2.expect_segment = s.expect_segment := rfl
    rw [he, hseg]
    simp
  have hpl : processLine (handle_stream_inf d s line).1 (handle_stream_inf d s line).2 uri
      = finalize_playlist (handle_stream_inf d s line).1 (handle_stream_inf d s line).2 uri := by
    unfold processLine
    rw [if_neg huri, if_neg hes, if_pos (show (handle_stream_inf d s line).2.expect_playlist = true from rfl)]
  have hfin : finalize_playlist (handle_stream_inf d s line).1 (handle_stream_inf d s line).2 uri
      = ((handle_stream_inf d s line).1,
         { (handle_stream_inf d s line).2 with stream_info := [], expect_playlist := false }) := by
    unfold finalize_playlist
    lift_lets
    extract_lets s1 si pl
    rw [if_pos hsi]
  refine ⟨hsi, rfl, rfl, ?_, ?_, ?_, by rfl⟩ <;> (rw [hpl, hfin]; try rfl)

/-- C10 witness: concrete whitespace-only stream-inf body followed by a
URI line, at the initial document and state. -/
theorem C10_empty_stream_inf_attrs_witness :
    (processLine (handle_stream_inf M3U8Data.empty ParserState.init ("#EXT-X-STREAM-INF: ".toList)).1
        (handle_stream_inf M3U8Data.empty ParserState.init ("#EXT-X-STREAM-INF: ".toList)).2
        ("x.m3u8".toList)).1.playlists = M3U8Data.empty.playlists :=
  (C10_empty_stream_inf_attrs M3U8Data.empty ParserState.init ("#EXT-X-STREAM-INF: ".toList)
    ("x.m3u8".toList) (by decide) (by rfl) (by decide)).2.2.2.1
